import Mathlib

/-!
Verification of the SAS source-code analyzer core of this repository.

The repository contains two near-duplicate single-pass, regex-driven
analyzers for SAS source text:

* `src/Gantt_new.py` (module-level functions `analyze_lines`,
  `analyze_single_line`, `clean_line`, `classify_line`, `check_block_start`,
  `check_block_end`, `finalize_open_blocks`, the feature extractors, the
  PROC SQL collector `analyze_snowflake_references`, and
  `calculate_complexity_metrics`), and
* `src/Code/sas_analysis.py` (class `EnhancedSASAnalyzer` with the
  corresponding `_`-prefixed methods and `_calculate_complexity_metrics`).

This file gives a shallow embedding of both pipelines:

* Python strings become `Str := List Char`; `str.upper()` is modelled
  per-character (the ASCII case, which covers SAS source text).
* The Python `re` patterns used by the analyzers are embedded by a small
  backtracking matcher (`RE` / `reM`) whose depth-first search order mirrors
  the Python regex engine: leftmost match position wins, alternatives are
  tried left to right, greedy quantifiers try longer matches first and lazy
  quantifiers shorter ones.  Each concrete pattern below carries a comment
  quoting the source regex it transcribes.  The matcher is fuelled; the fuel
  bounds only the recursion depth and is chosen large enough for every
  pattern/line pair arising here.
* Python `dict` / `defaultdict` (insertion ordered) become association
  lists with append-at-end insertion; `list.append` / `list.pop()` become
  `++ [x]` and removal of the last element.
* The per-line `try/except` in `analyze_lines` never fires in the model:
  every embedded operation is total.
-/

namespace SAS

/-! ## Python string primitives -/

/-- A Python string, as a list of characters. -/
abbrev Str := List Char

/-- The whitespace characters of Python `str.strip` / regex `\s` (ASCII). -/
def pyIsSpace (c : Char) : Bool :=
  c = ' ' || c = '\t' || c = '\n' || c = '\r' || c = '\x0b' || c = '\x0c'

/-- Uppercase character, ASCII (`str.upper` on SAS source text). -/
def upChar (c : Char) : Char := c.toUpper

/-- `s.upper()`. -/
def pyUpper (s : Str) : Str := s.map upChar

def isUcAlpha (c : Char) : Bool := 'A' ≤ c && c ≤ 'Z'
def isDigitCh (c : Char) : Bool := '0' ≤ c && c ≤ '9'
/-- The class `[A-Z_]`. -/
def isTokStart (c : Char) : Bool := isUcAlpha c || c = '_'
/-- The class `[A-Z0-9_]`. -/
def isTokCh (c : Char) : Bool := isUcAlpha c || isDigitCh c || c = '_'
/-- The class `[A-Z0-9_.]`. -/
def isTokDotCh (c : Char) : Bool := isTokCh c || c = '.'
/-- Regex `\w` (ASCII). -/
def isWordCh (c : Char) : Bool :=
  isUcAlpha c || ('a' ≤ c && c ≤ 'z') || isDigitCh c || c = '_'

/-- Strip characters satisfying `p` from both ends (`str.strip` family). -/
def pyStripP (p : Char → Bool) (s : Str) : Str :=
  ((s.dropWhile p).reverse.dropWhile p).reverse

/-- `s.strip()`. -/
def pyStrip (s : Str) : Str := pyStripP pyIsSpace s

/-- `s.rstrip(c)` for a single character. -/
def pyRStrip (ch : Char) (s : Str) : Str :=
  (s.reverse.dropWhile (· = ch)).reverse

/-- `s.strip(c)` for a single character. -/
def pyStripCh (ch : Char) (s : Str) : Str := pyStripP (· = ch) s

/-- Does `s` start with `pre`? -/
def strStarts : Str → Str → Bool
  | [], _ => true
  | _ :: _, [] => false
  | c :: pre, d :: s => c = d && strStarts pre s

/-- Python substring test `needle in hay`. -/
def pyIn (needle hay : Str) : Bool :=
  if strStarts needle hay then true
  else match hay with
    | [] => false
    | _ :: t => pyIn needle t

/-- Helper for `pySplitWs`: `acc` is the current token, reversed. -/
def pySplitWsGo : Str → Str → List Str
  | [], acc => if acc.isEmpty then [] else [acc.reverse]
  | c :: t, acc =>
    if pyIsSpace c then
      if acc.isEmpty then pySplitWsGo t [] else acc.reverse :: pySplitWsGo t []
    else pySplitWsGo t (c :: acc)

/-- `s.split()` — split on whitespace runs, dropping empty pieces. -/
def pySplitWs (s : Str) : List Str := pySplitWsGo s []

/-- `s.split(sep)` for a single-character separator, keeping empty pieces. -/
def pySplitOn (sep : Char) : Str → List Str
  | [] => [[]]
  | c :: t =>
    if c = sep then [] :: pySplitOn sep t
    else match pySplitOn sep t with
      | [] => [[c]]
      | p :: ps => (c :: p) :: ps

/-- `sep.join(xs)`. -/
def pyJoin (sep : Str) : List Str → Str
  | [] => []
  | [x] => x
  | x :: y :: t => x ++ sep ++ pyJoin sep (y :: t)

/-- Lexicographic `<` on strings (Python `str` comparison, code points). -/
def pyLtStr : Str → Str → Bool
  | [], [] => false
  | [], _ :: _ => true
  | _ :: _, [] => false
  | c :: s, d :: t => if c = d then pyLtStr s t else decide (c < d)

/-! ## A small regex engine

Embeds exactly the constructs appearing in the analyzers' patterns:
literals, character classes, concatenation, alternation (leftmost branch
preferred), greedy/lazy `*` and `?`, numbered capture groups, the word
boundary `\b`, and `$`.  `reM` is a continuation-passing depth-first
matcher; its first success coincides with the Python `re` match for these
patterns.  `prev` is the character immediately before the current position
(needed for `\b`). -/

inductive RE : Type where
  | eps : RE
  | lit : Char → RE
  | cls : (Char → Bool) → RE
  | cat : RE → RE → RE
  | alt : RE → RE → RE
  | rep : Bool → RE → RE      -- `*` (greedy) / `*?` (lazy)
  | qmark : Bool → RE → RE    -- `?` / `??`
  | grp : Nat → RE → RE
  | wb : RE                   -- word boundary
  | eos : RE                  -- end of string

/-- Captured groups: group index to captured text. -/
abbrev Caps := List (Nat × Str)

def capSet (caps : Caps) (i : Nat) (v : Str) : Caps :=
  match caps with
  | [] => [(i, v)]
  | (j, w) :: rest => if j = i then (i, v) :: rest else (j, w) :: capSet rest i v

/-- Group lookup; an unmatched group reads as the empty string, mirroring
the Python uses below (which only truth-test or directly consume groups). -/
def capGet (caps : Caps) (i : Nat) : Str :=
  match caps with
  | [] => []
  | (j, w) :: rest => if j = i then w else capGet rest i

/-- Word-boundary test between `prev` and the head of `s`. -/
def isWB (prev : Option Char) (s : Str) : Bool :=
  let a := match prev with | none => false | some c => isWordCh c
  let b := match s with | [] => false | c :: _ => isWordCh c
  a != b

def reSize : RE → Nat
  | .eps | .lit _ | .cls _ | .wb | .eos => 1
  | .cat a b | .alt a b => reSize a + reSize b + 1
  | .rep _ a | .qmark _ a => reSize a + 1
  | .grp _ a => reSize a + 1

/-- Depth-first matcher.  `k` is the continuation receiving the captures,
the new previous character and the remaining input.  A `rep` iteration must
consume input to continue (every starred sub-pattern below consumes at
least one character per iteration, as in the source patterns). -/
def reM : Nat → RE → Caps → Option Char → Str →
    (Caps → Option Char → Str → Option (Caps × Option Char × Str)) →
    Option (Caps × Option Char × Str)
  | 0, _, _, _, _, _ => none
  | Nat.succ f, re, caps, prev, s, k =>
    match re with
    | .eps => k caps prev s
    | .lit c =>
      (match s with
       | [] => none
       | x :: rest => if x = c then k caps (some x) rest else none)
    | .cls p =>
      (match s with
       | [] => none
       | x :: rest => if p x then k caps (some x) rest else none)
    | .cat a b => reM f a caps prev s (fun c2 p2 s2 => reM f b c2 p2 s2 k)
    | .alt a b => (reM f a caps prev s k) <|> (reM f b caps prev s k)
    | .qmark g a =>
      if g then (reM f a caps prev s k) <|> k caps prev s
      else (k caps prev s) <|> (reM f a caps prev s k)
    | .rep g a =>
      let cont := fun c2 p2 s2 =>
        if s2.length < s.length then reM f (.rep g a) c2 p2 s2 k else none
      if g then (reM f a caps prev s cont) <|> k caps prev s
      else (k caps prev s) <|> (reM f a caps prev s cont)
    | .grp i a =>
      reM f a caps prev s (fun c2 p2 s2 =>
        k (capSet c2 i (s.take (s.length - s2.length))) p2 s2)
    | .wb => if isWB prev s then k caps prev s else none
    | .eos => (match s with | [] => k caps prev s | _ :: _ => none)

/-- Fuel ample for every pattern/line pair in this development. -/
def fuelFor (re : RE) (s : Str) : Nat := (s.length + 2) * (reSize re + 2)

/-- Try to match `re` at the current position (Python `re.match` when
`prev = none` and `s` is the whole string). -/
def reMatchAt (re : RE) (prev : Option Char) (s : Str) :
    Option (Caps × Option Char × Str) :=
  reM (fuelFor re s) re [] prev s (fun c p r => some (c, p, r))

/-- `re.match` as a Boolean. -/
def reMatchB (re : RE) (s : Str) : Bool := (reMatchAt re none s).isSome

/-- `re.match`, returning the captures on success. -/
def reMatchCaps (re : RE) (s : Str) : Option Caps :=
  (reMatchAt re none s).map (·.1)

/-- `re.search` from successive positions, also returning the previous
character and the rest of the input after the match. -/
def reSearchFrom (re : RE) : Option Char → Str → Option (Caps × Option Char × Str)
  | prev, [] => reMatchAt re prev []
  | prev, x :: t =>
    match reMatchAt re prev (x :: t) with
    | some r => some r
    | none => reSearchFrom re (some x) t

/-- `re.search`, returning the captures of the leftmost match. -/
def reSearchCaps (re : RE) (s : Str) : Option Caps :=
  (reSearchFrom re none s).map (·.1)

/-- `re.search` as a Boolean. -/
def reSearchB (re : RE) (s : Str) : Bool := (reSearchFrom re none s).isSome

/-- `re.findall`: captures of successive non-overlapping leftmost matches. -/
def reFindFrom : Nat → RE → Option Char → Str → List Caps
  | 0, _, _, _ => []
  | Nat.succ fl, re, prev, s =>
    match reSearchFrom re prev s with
    | none => []
    | some (caps, p2, rest) =>
      if rest.length < s.length then caps :: reFindFrom fl re p2 rest
      else
        match rest with
        | [] => [caps]
        | x :: t => caps :: reFindFrom fl re (some x) t

def reFindAll (re : RE) (s : Str) : List Caps :=
  reFindFrom (s.length + 1) re none s

/-! ### Pattern-building helpers -/

/-- A literal string pattern. -/
def litS : Str → RE
  | [] => .eps
  | c :: t => .cat (.lit c) (litS t)

/-- Concatenation of a pattern list. -/
def rcat : List RE → RE
  | [] => .eps
  | [r] => r
  | r :: s :: t => .cat r (rcat (s :: t))

/-- `\s*`. -/
def ws0 : RE := .rep true (.cls pyIsSpace)
/-- `\s+`. -/
def ws1 : RE := .cat (.cls pyIsSpace) ws0
/-- `.` (any character except newline). -/
def dotAny : RE := .cls (fun c => c ≠ '\n')
/-- `[A-Z_][A-Z0-9_]*`. -/
def tokRE : RE := .cat (.cls isTokStart) (.rep true (.cls isTokCh))
/-- `[A-Z_][A-Z0-9_.]*`. -/
def dotTokRE : RE := .cat (.cls isTokStart) (.rep true (.cls isTokDotCh))
/-- `\d{n}`. -/
def digitsRE : Nat → RE
  | 0 => .eps
  | n + 1 => .cat (.cls isDigitCh) (digitsRE n)

end SAS

namespace SAS

/-! ## Insertion-ordered dictionaries

Python `dict` / `defaultdict` (3.7+: insertion ordered) are embedded as
association lists: a fresh key is appended at the end, an existing key is
updated in place.  All analyzer writes go through these operations, so
keys stay unique and `len(dict)` is the list length. -/

/-- `defaultdict(list)[k].append(v)`. -/
def alApp {κ β : Type} [DecidableEq κ] (m : List (κ × List β)) (k : κ) (v : β) :
    List (κ × List β) :=
  match m with
  | [] => [(k, [v])]
  | (k2, vs) :: rest =>
    if k2 = k then (k2, vs ++ [v]) :: rest else (k2, vs) :: alApp rest k v

/-- `d[k] = v` (replace in place, or append a fresh key). -/
def alSet {κ β : Type} [DecidableEq κ] (m : List (κ × β)) (k : κ) (v : β) :
    List (κ × β) :=
  match m with
  | [] => [(k, v)]
  | (k2, w) :: rest =>
    if k2 = k then (k2, v) :: rest else (k2, w) :: alSet rest k v

/-- `d.get(k)`. -/
def alGet {κ β : Type} [DecidableEq κ] (m : List (κ × β)) (k : κ) : Option β :=
  match m with
  | [] => none
  | (k2, w) :: rest => if k2 = k then some w else alGet rest k

/-- `list.remove(x)` — drop the first occurrence. -/
def pyRemove {α : Type} [DecidableEq α] (l : List α) (x : α) : List α :=
  match l with
  | [] => []
  | y :: t => if y = x then t else y :: pyRemove t x

/-! ## Shared record types (dict-shaped values of the analyzers) -/

/-- A block on the tracker stack / in the final `function_blocks` list
(`block_info` dicts of `check_block_start`).  `btype` is the `'type'` key;
the kind-specific keys are optional fields. -/
structure BlockInfo where
  btype : Str
  name : Str
  start_line : Nat
  end_line : Option Nat
  datasets : List Str := []
  proc_name : Option Str := none
  dataset : Option Str := none
  macro_name : Option Str := none
  parameters : Option Str := none
deriving DecidableEq

/-- One `procedures_used` instance (`{'line': ..., 'dataset': ...}`). -/
structure ProcUse where
  line : Nat
  dataset : Str
deriving DecidableEq

/-- One `line_analysis` record; `ltype` is the `'type'` key. -/
structure LineInfo where
  original : Str
  cleaned : Str
  ltype : Str
  source_file : Option Str
deriving DecidableEq

/-- A `macros_defined` record of `Gantt_new.analyze_macros`.  The `end_line`
key is added later by `%MEND` handling, hence optional.  The `defaultdict(dict)`
default is modelled by sentinel field values (that path is unreachable: every
stacked name has been recorded by the definition that pushed it). -/
structure GMacroDef where
  line : Nat
  parameters : Str
  parent : Option Str
  end_line : Option Nat := none
deriving DecidableEq

/-- One emitted `snowflake_queries` record of `analyze_snowflake_references`. -/
structure SqlQueryRec where
  start_line : Option Nat
  end_line : Nat
  query : Str
  tables_referenced : List Str
  created_table_name : Str
  created_table_type : Str
deriving DecidableEq

/-- One `proc_import_details` record (`extract_detailed_proc_info`). -/
structure ProcImportDetail where
  name : Str
  line_number : Nat
  out : Str
  dbms : Str
  datafile : Str
deriving DecidableEq

/-- One `proc_export_details` record (`extract_detailed_proc_info`). -/
structure ProcExportDetail where
  name : Str
  line_number : Nat
  data : Str
  dbms : Str
  outfile : Str
deriving DecidableEq

/-- One `data_step_details` record; `dtype` is the `'type'` key; `size` is
`None`-like (`'Unknown'`) when the end line is falsy. -/
structure DataStepDetail where
  name : Str
  dtype : Str
  line_number : Nat
  size : Option Int
  operations_used : Str
deriving DecidableEq

/-- `code_complexity` of `Gantt_new.calculate_complexity_metrics` (this
variant has no `complexity_score` key). -/
structure GComplexity where
  total_functions : Nat
  total_datasets : Nat
  total_procedures : Nat
  total_macros : Nat
  total_includes : Nat
  total_sys_functions : Nat
  total_lines : Nat
deriving DecidableEq

/-- The analysis results dict of `Gantt_new.initialize_analysis`. -/
structure GResults where
  function_blocks : List BlockInfo := []
  datasets_created : List (Str × List Nat) := []
  datasets_used : List (Str × List Nat) := []
  procedures_used : List (Str × List ProcUse) := []
  macros_defined : List (Str × GMacroDef) := []
  macros_called : List (Str × List Nat) := []
  libraries_defined : List (Str × List Nat) := []
  sql_statements : List (Str × List Nat) := []
  variables_used : List (Str × List Nat) := []
  file_operations : List (Str × List Nat) := []
  control_structures : List (Str × List Nat) := []
  include_files : List (Str × List Nat) := []
  system_functions : List (Str × List Nat) := []
  call_routines : List (Str × List Nat) := []
  formats : List (Str × List Nat) := []
  hash_objects : List (Str × List Nat) := []
  ods_statements : List (Str × List Nat) := []
  jdbc_connections : List (Str × List Nat) := []
  snowflake_tables : List (Str × List Nat) := []
  snowflake_queries : List SqlQueryRec := []
  create_table_info : List (Str × Str × Option Nat) := []
  proc_import_details : List ProcImportDetail := []
  proc_export_details : List ProcExportDetail := []
  data_step_details : List DataStepDetail := []
  timeframe_start : Option (Str × Nat) := none
  timeframe_end : Option (Str × Nat) := none
  code_complexity : Option GComplexity := none
  line_analysis : List (Nat × LineInfo) := []
  nested_macro_list : List (Str × List Str) := []
deriving DecidableEq

/-- The state dict of `Gantt_new.initialize_analysis`. -/
structure GState where
  current_blocks : List BlockInfo := []
  include_stack : List Str := []
  in_sql_block : Bool := false
  current_sql_query : List Str := []
  sql_block_start : Option Nat := none
  macro_stack : List Str := []
deriving DecidableEq

/-- `initialize_analysis` (Gantt_new.py lines 345-392): fresh results. -/
def initResults : GResults := {}

/-- `initialize_analysis`: fresh state. -/
def initState : GState := {}

end SAS

namespace SAS

/-! ## Compiled patterns (each comment quotes the source regex) -/

/-- Shorthand: literal pattern from a string literal. -/
def litW (s : String) : RE := litS s.data

/-- One-or-more of a character class (`[...]+`). -/
def clsPlus (p : Char → Bool) : RE := .cat (.cls p) (.rep true (.cls p))

/-- A keyword with internal spaces replaced by `\s+`
(`operation.replace(' ', r'\s+')` in `analyze_sql_operations`). -/
def spacedLit : Str → RE
  | [] => .eps
  | ' ' :: t => .cat ws1 (spacedLit t)
  | c :: t => .cat (.lit c) (spacedLit t)

/-- `([A-Z_][A-Z0-9_.]*(?:\s+[A-Z_][A-Z0-9_.]*)*)` — greedy dataset list. -/
def dsListRE : RE := .grp 1 (.cat dotTokRE (.rep true (.cat ws1 dotTokRE)))

/-- `^\s*%INCLUDE\s+` (classify_line). -/
def pClsInclude : RE := rcat [ws0, litW "%INCLUDE", ws1]
/-- `^\s*DATA\s+` (classify_line). -/
def pClsData : RE := rcat [ws0, litW "DATA", ws1]
/-- `^\s*PROC\s+` (classify_line). -/
def pClsProc : RE := rcat [ws0, litW "PROC", ws1]
/-- `^\s*%MACRO\s+` (classify_line). -/
def pClsMacroDef : RE := rcat [ws0, litW "%MACRO", ws1]
/-- `^\s*%` (classify_line). -/
def pClsPct : RE := .cat ws0 (.lit '%')
/-- `^\s*LIBNAME\s+` (classify_line). -/
def pClsLib : RE := rcat [ws0, litW "LIBNAME", ws1]
/-- `^\s*ODS\s+` (classify_line). -/
def pClsOds : RE := rcat [ws0, litW "ODS", ws1]

/-- `^\s*DATA\s+([A-Z_][A-Z0-9_.]*(?:\s+[A-Z_][A-Z0-9_.]*)*)` (check_block_start). -/
def pBlockData : RE := rcat [ws0, litW "DATA", ws1, dsListRE]

/-- `PROC\s+([A-Z]+)(?:\s+DATA\s*=\s*([A-Z_][A-Z0-9_.]*))?\s*;?`
(analyze_procedures; check_block_start anchors it with `^\s*`). -/
def pProcSearch : RE :=
  rcat [litW "PROC", ws1, .grp 1 (clsPlus isUcAlpha),
        .qmark true (rcat [ws1, litW "DATA", ws0, .lit '=', ws0, .grp 2 dotTokRE]),
        ws0, .qmark true (.lit ';')]

/-- `^\s*PROC\s+([A-Z]+)(?:\s+DATA\s*=\s*([A-Z_][A-Z0-9_.]*))?\s*;?`. -/
def pBlockProc : RE := .cat ws0 pProcSearch

/-- `%MACRO\s+([A-Z_][A-Z0-9_]*)\(([^)]*)\)?\s*;?`
(Gantt_new analyze_macros / check_block_start: the `(` is mandatory). -/
def pMacroDefG : RE :=
  rcat [litW "%MACRO", ws1, .grp 1 tokRE, .lit '(',
        .grp 2 (.rep true (.cls (· ≠ ')'))), .qmark true (.lit ')'),
        ws0, .qmark true (.lit ';')]

/-- `^\s*%MACRO\s+...` anchored form used by Gantt_new check_block_start. -/
def pBlockMacroG : RE := .cat ws0 pMacroDefG

/-- `%MEND\s*(\w*)?\s*;?` (analyze_macros). -/
def pMend : RE :=
  rcat [litW "%MEND", ws0, .qmark true (.grp 1 (.rep true (.cls isWordCh))),
        ws0, .qmark true (.lit ';')]

/-- `%([A-Z_][A-Z0-9_]*)\b` (macro calls). -/
def pMacroCall : RE := rcat [.lit '%', .grp 1 tokRE, .wb]

/-- `DATA\s+([A-Z_][A-Z0-9_.]*(?:\s+[A-Z_][A-Z0-9_.]*)*)` (analyze_data_operations). -/
def pDataSearch : RE := rcat [litW "DATA", ws1, dsListRE]

/-- `VERB\s+([A-Z_][A-Z0-9_.]*(?:\s+[A-Z_][A-Z0-9_.]*)*?)(?:\s|;|$)` — the
SET/MERGE/UPDATE usage patterns (lazy list, then a delimiter). -/
def pUsage (verb : String) : RE :=
  rcat [litS verb.data, ws1,
        .grp 1 (.cat dotTokRE (.rep false (.cat ws1 dotTokRE))),
        .alt (.cls pyIsSpace) (.alt (.lit ';') .eos)]

/-- `OP\s+([A-Z_][A-Z0-9_]*(?:\s+[A-Z_][A-Z0-9_]*)*?)(?:\s|;|$)` — the
KEEP/DROP/VAR/BY/CLASS variable patterns. -/
def pVarOp (verb : String) : RE :=
  rcat [litS verb.data, ws1,
        .grp 1 (.cat tokRE (.rep false (.cat ws1 tokRE))),
        .alt (.cls pyIsSpace) (.alt (.lit ';') .eos)]

/-- `\bKW\b` with internal spaces as `\s+` (analyze_sql_operations). -/
def pSqlKw (kw : String) : RE := rcat [.wb, spacedLit kw.data, .wb]

/-- `\bIF\s+.*\bTHEN\b`. -/
def pIfThen : RE :=
  rcat [.wb, litW "IF", ws1, .rep true dotAny, .wb, litW "THEN", .wb]
/-- `\bDO\b.*(?:TO|WHILE|UNTIL)`. -/
def pDoLoop : RE :=
  rcat [.wb, litW "DO", .wb, .rep true dotAny,
        .alt (litW "TO") (.alt (litW "WHILE") (litW "UNTIL"))]
/-- `\bARRAY\s+[A-Z_][A-Z0-9_]*`. -/
def pArrayCtl : RE := rcat [.wb, litW "ARRAY", ws1, tokRE]
/-- `\bX\s+` for single-keyword statements. -/
def pKwSpace (kw : String) : RE := rcat [.wb, litW kw, ws1]
/-- `\bX\s*;` for OUTPUT/RETURN/DELETE. -/
def pKwSemi (kw : String) : RE := rcat [.wb, litW kw, ws0, .lit ';']

/-- `LIBNAME\s+([A-Z_][A-Z0-9_]*)`. -/
def pLibname : RE := rcat [litW "LIBNAME", ws1, .grp 1 tokRE]

/-- `%INCLUDE\s*["\']([^"\']+)["\']|%INCLUDE\s*([^;]+);?`
(Gantt_new analyze_include_files, findall with two groups). -/
def isQuoteCh (c : Char) : Bool := c = '"' || c = '\''
def pIncludeG : RE :=
  .alt (rcat [litW "%INCLUDE", ws0, .cls isQuoteCh,
              .grp 1 (clsPlus (fun c => !isQuoteCh c)), .cls isQuoteCh])
       (rcat [litW "%INCLUDE", ws0, .grp 2 (clsPlus (· ≠ ';')),
              .qmark true (.lit ';')])

/-- `\bFUNC\s*\(` (analyze_system_functions). -/
def pFnCall (f : Str) : RE := rcat [.wb, litS f, ws0, .lit '(']

/-- `^\s*PROC\s+SQL` (analyze_snowflake_references; `^` anchors search). -/
def pProcSql : RE := rcat [ws0, litW "PROC", ws1, litW "SQL"]

/-- `\b([A-Z_][A-Z0-9_]*\.[A-Z_][A-Z0-9_]*\.[A-Z_][A-Z0-9_]*)\b`. -/
def pThreePart : RE :=
  rcat [.wb, .grp 1 (rcat [tokRE, .lit '.', tokRE, .lit '.', tokRE]), .wb]
/-- `\b([A-Z_][A-Z0-9_]*\.[A-Z_][A-Z0-9_]*)\b`. -/
def pTwoPart : RE := rcat [.wb, .grp 1 (rcat [tokRE, .lit '.', tokRE]), .wb]
/-- `(?:FROM|JOIN)\s+([A-Z_][A-Z0-9_.]*)`. -/
def pFromJoin : RE :=
  rcat [.alt (litW "FROM") (litW "JOIN"), ws1, .grp 1 dotTokRE]
/-- `(?:INSERT\s+INTO|UPDATE)\s+([A-Z_][A-Z0-9_.]*)`. -/
def pInsUpd : RE :=
  rcat [.alt (rcat [litW "INSERT", ws1, litW "INTO"]) (litW "UPDATE"),
        ws1, .grp 1 dotTokRE]
/-- `CREATE\s+(?:OR\s+REPLACE\s+)?(?:TABLE|VIEW)\s+([A-Z_][A-Z0-9_.]*)`. -/
def pCreateTV : RE :=
  rcat [litW "CREATE", ws1,
        .qmark true (rcat [litW "OR", ws1, litW "REPLACE", ws1]),
        .alt (litW "TABLE") (litW "VIEW"), ws1, .grp 1 dotTokRE]

/-- `FROM\s+([A-Z_][A-Z0-9_.]*)` (extract_tables_from_query). -/
def pTblFrom : RE := rcat [litW "FROM", ws1, .grp 1 dotTokRE]
/-- `JOIN\s+([A-Z_][A-Z0-9_.]*)`. -/
def pTblJoin : RE := rcat [litW "JOIN", ws1, .grp 1 dotTokRE]
/-- `INSERT\s+INTO\s+([A-Z_][A-Z0-9_.]*)`. -/
def pTblInsert : RE := rcat [litW "INSERT", ws1, litW "INTO", ws1, .grp 1 dotTokRE]
/-- `UPDATE\s+([A-Z_][A-Z0-9_.]*)`. -/
def pTblUpdate : RE := rcat [litW "UPDATE", ws1, .grp 1 dotTokRE]

/-- `CREATE\s+(?:OR\s+REPLACE\s+)?TABLE\s+([A-Z_][A-Z0-9_.]*)`
(extract_created_tables_from_sql). -/
def pCreatedTable : RE :=
  rcat [litW "CREATE", ws1,
        .qmark true (rcat [litW "OR", ws1, litW "REPLACE", ws1]),
        litW "TABLE", ws1, .grp 1 dotTokRE]

/-- `\b(?:RUN|QUIT)\s*;` (Gantt_new check_block_end). -/
def pRunQuit : RE :=
  rcat [.wb, .alt (litW "RUN") (litW "QUIT"), ws0, .lit ';']

/-! ## Line Normalizer and Line Classifier -/

/-- Rest of the input after the nearest `*/` on the same line (the
non-greedy body `.*?` of the block-comment pattern cannot cross `\n`). -/
def findCommentClose : Str → Option Str
  | [] => none
  | c :: t =>
    if strStarts "*/".data (c :: t) then some t.tail
    else if c = '\n' then none
    else findCommentClose t

theorem findCommentClose_length :
    ∀ s r, findCommentClose s = some r → r.length ≤ s.length := by
  intro s
  induction s with
  | nil => intro r h; simp [findCommentClose] at h
  | cons c t ih =>
    intro r h
    simp only [findCommentClose] at h
    split at h
    · cases h
      cases t with
      | nil => simp
      | cons d u => simp [List.tail]; omega
    · split at h
      · cases h
      · have := ih r h
        simp; omega

/-- `re.sub(r'/\*.*?\*/', '', line)` — delete each block comment
(leftmost `/*`, nearest `*/`, no newline in between).  The fuel only
bounds the recursion depth: every step consumes at least one character
(`findCommentClose` yields a suffix of its argument), so `length + 1`
suffices and the fuel-exhausted case is unreachable. -/
def removeBCGo : Nat → Str → Str
  | 0, s => s
  | _, [] => []
  | fl + 1, c :: t =>
    if strStarts "/*".data (c :: t) then
      match findCommentClose t.tail with
      | some rest => removeBCGo fl rest
      | none => c :: removeBCGo fl t
    else c :: removeBCGo fl t

def removeBlockComments (s : Str) : Str := removeBCGo (s.length + 1) s

/-- `re.sub(r'^\s*\*.*$', '', line)` — a line whose first non-blank
character is `*` is a line comment; the match runs to the end of the line
(`.` stops before a trailing final newline, which `$` then admits). -/
def removeLineComment (s : Str) : Str :=
  let rest := s.dropWhile pyIsSpace
  match rest with
  | '*' :: _ =>
    let tl := rest.dropWhile (· ≠ '\n')
    if tl = [] || tl = ['\n'] then tl else s
  | _ => s

/-- `clean_line` (Gantt_new.py lines 395-409, sas_analysis.py `_clean_line`
lines 103-107): strip block comments, then line comments, then uppercase. -/
def cleanLine (line : Str) : Str :=
  pyUpper (removeLineComment (removeBlockComments line))

/-- `classify_line` (Gantt_new.py lines 412-441; `_classify_line` in
sas_analysis.py lines 109-128 is identical except that it does not
re-strip): ordered prefix tests, then the terminator substring test. -/
def classifyLine (line : Str) : Str :=
  let line := pyStrip line
  if reMatchB pClsInclude line then "INCLUDE".data
  else if reMatchB pClsData line then "DATA_STEP".data
  else if reMatchB pClsProc line then "PROCEDURE".data
  else if reMatchB pClsMacroDef line then "MACRO_DEF".data
  else if reMatchB pClsPct line then "MACRO_CALL".data
  else if reMatchB pClsLib line then "LIBRARY".data
  else if reMatchB pClsOds line then "ODS".data
  else if pyIn "RUN;".data line || pyIn "QUIT;".data line then "TERMINATOR".data
  else "STATEMENT".data

end SAS

namespace SAS

/-! ## Keyword tables -/

/-- `is_sas_keyword` set (Gantt_new.py lines 448-467). -/
def sasKeywords : List Str :=
  ["SELECT", "FROM", "WHERE", "GROUP", "BY", "ORDER", "HAVING", "UNION",
   "JOIN", "INNER", "LEFT", "RIGHT", "FULL", "OUTER", "ON", "AS",
   "INSERT", "UPDATE", "DELETE", "CREATE", "DROP", "ALTER", "TABLE",
   "VIEW", "INDEX", "DATABASE", "SCHEMA", "COLUMN", "PRIMARY", "KEY",
   "FOREIGN", "CONSTRAINT", "NOT", "NULL", "DEFAULT", "AUTO_INCREMENT",
   "DISTINCT", "COUNT", "SUM", "AVG", "MIN", "MAX", "AND", "OR", "IN",
   "BETWEEN", "LIKE", "IS", "EXISTS", "CASE", "WHEN", "THEN", "ELSE",
   "END"].map String.data

/-- `is_sas_keyword(word)`: membership of `word.upper()` in the set. -/
def isSasKeyword (w : Str) : Bool := sasKeywords.contains (pyUpper w)

/-- SAS function list of `Gantt_new.analyze_system_functions` (lines 733-751). -/
def sysFunctionsG : List Str :=
  ["SUM", "MEAN", "MIN", "MAX", "COUNT", "N", "NMISS",
   "ROUND", "CEIL", "FLOOR", "INT", "ABS", "LOG", "EXP", "SQRT",
   "SIN", "COS", "TAN", "RAND", "RANUNI", "NORMAL", "GAMMA", "BETA",
   "SUBSTR", "TRIM", "STRIP", "LEFT", "RIGHT", "LENGTH",
   "UPCASE", "LOWCASE", "PROPCASE", "COMPRESS", "TRANSLATE",
   "INDEX", "FIND", "SCAN", "CATS", "CATX", "CAT",
   "TODAY", "DATE", "DATETIME", "TIME", "DATEPART", "TIMEPART",
   "YEAR", "MONTH", "DAY", "WEEKDAY", "MDY", "YMD",
   "INTCK", "INTNX", "DATDIF", "JULDATE",
   "INPUT", "PUT", "COALESCEC", "COALESCE", "IFC", "IFN",
   "MISSING"].map String.data

/-- `system_macros` exclusion set of `Gantt_new.analyze_macros`
(lines 914-935; repeated entries of the Python set literal kept). -/
def systemMacrosG : List Str :=
  ["MACRO", "MEND", "LET", "IF", "THEN", "ELSE", "DO", "END",
   "EVAL", "STR", "QUOTE", "SCAN", "SUBSTR", "INCLUDE", "ARRAY", "MEND",
   "PUT", "TO", "DOLOOP", "SYSFUNC",
   "SUM", "MEAN", "MIN", "MAX", "COUNT", "N", "NMISS",
   "ROUND", "CEIL", "FLOOR", "INT", "ABS", "LOG", "EXP", "SQRT",
   "SIN", "COS", "TAN", "RAND", "RANUNI", "NORMAL", "GAMMA", "BETA",
   "SUBSTR", "TRIM", "STRIP", "LEFT", "RIGHT", "LENGTH",
   "UPCASE", "LOWCASE", "PROPCASE", "COMPRESS", "TRANSLATE",
   "INDEX", "FIND", "SCAN", "CATS", "CATX", "CAT",
   "TODAY", "DATE", "DATETIME", "TIME", "DATEPART", "TIMEPART",
   "YEAR", "MONTH", "DAY", "WEEKDAY", "MDY", "YMD",
   "INTCK", "INTNX", "DATDIF", "JULDATE",
   "INPUT", "PUT", "COALESCEC", "COALESCE", "IFC", "IFN",
   "MISSING"].map String.data

/-- `sql_operations` of `analyze_sql_operations` (both pipelines). -/
def sqlOperations : List String :=
  ["SELECT", "CREATE", "INSERT", "UPDATE", "DELETE", "ALTER", "DROP",
   "FROM", "WHERE", "GROUP BY", "HAVING", "ORDER BY", "UNION", "JOIN"]

/-- `operation.replace(' ', '_')` for the `sql_statements` key. -/
def sqlOpKey (op : String) : Str :=
  op.data.map (fun c => if c = ' ' then '_' else c)

/-- `control_patterns` of `analyze_control_structures` (both pipelines). -/
def controlPatterns : List (Str × RE) :=
  [("IF_THEN".data, pIfThen), ("DO_LOOP".data, pDoLoop),
   ("ARRAY".data, pArrayCtl), ("FORMAT".data, pKwSpace "FORMAT"),
   ("LENGTH".data, pKwSpace "LENGTH"), ("LABEL".data, pKwSpace "LABEL"),
   ("RETAIN".data, pKwSpace "RETAIN"), ("OUTPUT".data, pKwSemi "OUTPUT"),
   ("RETURN".data, pKwSemi "RETURN"), ("DELETE".data, pKwSemi "DELETE")]

/-- `file_ops` of `analyze_file_operations` (both pipelines). -/
def fileOpsPatterns : List (Str × RE) :=
  [("INFILE".data, pKwSpace "INFILE"), ("FILE".data, pKwSpace "FILE"),
   ("FILENAME".data, pKwSpace "FILENAME"), ("PUT".data, pKwSpace "PUT"),
   ("INPUT".data, pKwSpace "INPUT")]

/-- `usage_patterns` verbs of `analyze_data_operations` (both pipelines). -/
def usageVerbs : List String := ["SET", "MERGE", "UPDATE"]

/-- `var_ops` verbs of `analyze_variables` (both pipelines). -/
def varOpVerbs : List String := ["KEEP", "DROP", "VAR", "BY", "CLASS"]

/-! ## SQL helpers (Gantt_new.py lines 448-535) -/

/-- `extract_tables_from_query` (lines 470-496): run the five patterns on
the upper-cased query, keep non-keyword names, first occurrence only. -/
def extractTablesFromQuery (q : Str) : List Str :=
  let up := pyUpper q
  [pTblFrom, pTblJoin, pTblInsert, pTblUpdate, pCreateTV].foldl
    (fun tables pat =>
      (reFindAll pat up).foldl
        (fun tables caps =>
          let t := capGet caps 1
          if !isSasKeyword t && !tables.contains t then tables ++ [t]
          else tables)
        tables)
    []

/-- `extract_created_tables_from_sql` (lines 499-514).  The source compiles
its pattern with `re.IGNORECASE` over the raw-case text and upper-cases each
capture; matching over the upper-cased text is the same for this
letter-class pattern (position-preserving ASCII uppercasing). -/
def extractCreatedTablesFromSql (sql : Str) : List Str :=
  (reFindAll pCreatedTable (pyUpper sql)).map (fun c => pyUpper (capGet c 1))

/-- `determine_dataset_type` (lines 517-535). -/
def determineDatasetType (table_name : Str) : Str :=
  let parts := pySplitOn '.' table_name
  if parts.length = 1 then "Temporary".data
  else
    let libref := pyUpper (parts.headD [])
    if libref = "WORK".data || libref = [] then "Temporary".data
    else "Permanent".data

/-! ## Feature extractors (Gantt_new.py) -/

/-- `analyze_data_operations` (lines 777-809). -/
def analyzeDataOperations (line : Str) (ln : Nat) (r : GResults) : GResults :=
  let r :=
    match reSearchCaps pDataSearch line with
    | some caps =>
      (pySplitWs (capGet caps 1)).foldl
        (fun r ds =>
          let dsu := pyUpper ds
          let r := {r with datasets_created := alApp r.datasets_created dsu ln}
          let entry := (dsu, determineDatasetType dsu, some ln)
          {r with create_table_info := r.create_table_info ++ [entry]})
        r
    | none => r
  usageVerbs.foldl
    (fun r verb =>
      (reFindAll (pUsage verb) line).foldl
        (fun r caps =>
          (pySplitWs (capGet caps 1)).foldl
            (fun r ds =>
              let key := verb.data ++ "_".data ++ pyUpper ds
              {r with datasets_used := alApp r.datasets_used key ln})
            r)
        r)
    r

/-- `analyze_procedures` (lines 759-775). -/
def analyzeProcedures (line : Str) (ln : Nat) (r : GResults) : GResults :=
  match reSearchCaps pProcSearch line with
  | some caps =>
    let procName := pyUpper (capGet caps 1)
    let dataset := if (capGet caps 2).isEmpty then "UNKNOWN".data
                   else pyUpper (capGet caps 2)
    {r with procedures_used := alApp r.procedures_used procName ⟨ln, dataset⟩}
  | none => r

/-- `analyze_macros` (Gantt_new.py lines 860-939): definition tracking with
the macro name stack, `%MEND` handling, and call detection. -/
def analyzeMacrosG (line : Str) (ln : Nat) (r : GResults) (stack : List Str) :
    GResults × List Str :=
  -- macro definitions
  let (r, stack) :=
    match reSearchCaps pMacroDefG line with
    | some caps =>
      let macroName := pyUpper (capGet caps 1)
      let params := capGet caps 2
      let info : GMacroDef := ⟨ln, pyStrip params, stack.getLast?, none⟩
      let r := {r with macros_defined := alSet r.macros_defined macroName info}
      let r :=
        if stack.isEmpty then r
        else
          let parent := stack.getLast?.getD []
          {r with nested_macro_list := alApp r.nested_macro_list parent macroName}
      (r, stack ++ [macroName])
    | none => (r, stack)
  -- macro end statements (guarded by a non-empty stack in the source)
  let (r, stack) :=
    match reSearchCaps pMend line with
    | some caps =>
      if stack.isEmpty then (r, stack)
      else
        let mendName := capGet caps 1
        if !mendName.isEmpty then
          let mendName := pyUpper mendName
          match alGet r.macros_defined mendName with
          | some info =>
            let info := if info.end_line = none then {info with end_line := some ln}
                        else info
            let r := {r with macros_defined := alSet r.macros_defined mendName info}
            let stack := if stack.contains mendName then pyRemove stack mendName
                         else stack
            (r, stack)
          | none => (r, stack)
        else
          match stack.getLast? with
          | some cur =>
            let info := (alGet r.macros_defined cur).getD ⟨0, [], none, none⟩
            let info := if info.end_line = none then {info with end_line := some ln}
                        else info
            ({r with macros_defined := alSet r.macros_defined cur info},
             stack.dropLast)
          | none => (r, stack)
    | none => (r, stack)
  -- macro calls outside the exclusion set
  let r :=
    (reFindAll pMacroCall line).foldl
      (fun r caps =>
        let nm := pyUpper (capGet caps 1)
        if !systemMacrosG.contains nm then
          {r with macros_called := alApp r.macros_called nm ln}
        else r)
      r
  (r, stack)

/-- `analyze_sql_operations` (lines 941-961). -/
def analyzeSqlOperations (line : Str) (ln : Nat) (r : GResults) : GResults :=
  sqlOperations.foldl
    (fun r op =>
      if reSearchB (pSqlKw op) line then
        {r with sql_statements := alApp r.sql_statements (sqlOpKey op) ln}
      else r)
    r

/-- `analyze_control_structures` (lines 964-988). -/
def analyzeControlStructures (line : Str) (ln : Nat) (r : GResults) : GResults :=
  controlPatterns.foldl
    (fun r sp =>
      if reSearchB sp.2 line then
        {r with control_structures := alApp r.control_structures sp.1 ln}
      else r)
    r

/-- `analyze_file_operations` (lines 991-1017). -/
def analyzeFileOperations (line : Str) (ln : Nat) (r : GResults) : GResults :=
  let r :=
    match reSearchCaps pLibname line with
    | some caps =>
      let nm := pyUpper (capGet caps 1)
      {r with libraries_defined := alApp r.libraries_defined nm ln}
    | none => r
  fileOpsPatterns.foldl
    (fun r sp =>
      if reSearchB sp.2 line then
        {r with file_operations := alApp r.file_operations sp.1 ln}
      else r)
    r

/-- `analyze_variables` (lines 1020-1042). -/
def analyzeVariables (line : Str) (ln : Nat) (r : GResults) : GResults :=
  varOpVerbs.foldl
    (fun r verb =>
      (reFindAll (pVarOp verb) line).foldl
        (fun r caps =>
          (pySplitWs (capGet caps 1)).foldl
            (fun r v =>
              let key := verb.data ++ "_".data ++ pyUpper v
              {r with variables_used := alApp r.variables_used key ln})
            r)
        r)
    r

/-- `analyze_include_files` (Gantt_new.py lines 702-721). -/
def analyzeIncludeFilesG (line : Str) (ln : Nat) (r : GResults) : GResults :=
  (reFindAll pIncludeG line).foldl
    (fun r caps =>
      let quoted := capGet caps 1
      let unquoted := capGet caps 2
      let filename := if !quoted.isEmpty then quoted else unquoted
      let filename :=
        pyStrip (pyRStrip ';' (pyStripCh '\'' (pyStripCh '"' filename)))
      if !filename.isEmpty then
        {r with include_files := alApp r.include_files filename ln}
      else r)
    r

/-- `analyze_system_functions` (Gantt_new.py lines 724-756). -/
def analyzeSystemFunctionsG (line : Str) (ln : Nat) (r : GResults) : GResults :=
  sysFunctionsG.foldl
    (fun r f =>
      if reSearchB (pFnCall f) line then
        {r with system_functions := alApp r.system_functions f ln}
      else r)
    r

/-- The `snowflake_patterns` table (lines 687-693). -/
def snowflakePatterns : List RE :=
  [pThreePart, pTwoPart, pFromJoin, pInsUpd, pCreateTV]

/-- `analyze_snowflake_references` (Gantt_new.py lines 633-699): the
PROC SQL sub-state-machine plus the per-line table-pattern scan.  Receives
the raw line (the caller passes `line`, not `cleaned_line`). -/
def analyzeSnowflakeReferences (line : Str) (ln : Nat) (r : GResults)
    (st : GState) : GResults × GState :=
  let lineUpper := pyUpper line
  if reMatchB pProcSql lineUpper then
    (r, {st with in_sql_block := true, sql_block_start := some ln,
                 current_sql_query := []})
  else if st.in_sql_block &&
      (pyIn "QUIT;".data lineUpper || pyIn "RUN;".data lineUpper) then
    let r :=
      if !st.current_sql_query.isEmpty then
        let queryText := pyJoin " ".data st.current_sql_query
        let createdTables := extractCreatedTablesFromSql queryText
        let createdName := createdTables.headD "None".data
        let createdType :=
          if createdName ≠ "None".data then determineDatasetType createdName
          else "N/A".data
        let rec1 : SqlQueryRec :=
          ⟨st.sql_block_start, ln, queryText,
           extractTablesFromQuery queryText, createdName, createdType⟩
        let r := {r with snowflake_queries := r.snowflake_queries ++ [rec1]}
        createdTables.foldl
          (fun r tbl =>
            let entry := (tbl, determineDatasetType tbl, st.sql_block_start)
            {r with create_table_info := r.create_table_info ++ [entry]})
          r
      else r
    (r, {st with in_sql_block := false, current_sql_query := [],
                 sql_block_start := none})
  else
    let st :=
      if st.in_sql_block && !(pyStrip line).isEmpty &&
          !reMatchB pProcSql lineUpper &&
          !(pyIn "QUIT;".data lineUpper || pyIn "RUN;".data lineUpper) then
        {st with current_sql_query := st.current_sql_query ++ [pyStrip line]}
      else st
    let r :=
      snowflakePatterns.foldl
        (fun r pat =>
          (reFindAll pat lineUpper).foldl
            (fun r caps =>
              let tbl := capGet caps 1
              if !isSasKeyword tbl then
                {r with snowflake_tables := alApp r.snowflake_tables tbl ln}
              else r)
            r)
        r
    (r, st)

/-! ## Block Tracker (Gantt_new.py) -/

/-- `check_block_start` (lines 1045-1098): DATA, then PROC, then MACRO. -/
def checkBlockStart (line : Str) (ln : Nat) (st : GState) : GState :=
  match reMatchCaps pBlockData line with
  | some caps =>
    let datasets := pySplitWs (capGet caps 1)
    {st with current_blocks := st.current_blocks ++
      [{btype := "DATA".data,
        name := "DATA ".data ++ pyJoin " ".data datasets,
        start_line := ln, end_line := none, datasets := datasets}]}
  | none =>
  match reMatchCaps pBlockProc line with
  | some caps =>
    let procName := pyUpper (capGet caps 1)
    let dataset := if (capGet caps 2).isEmpty then "UNKNOWN".data
                   else pyUpper (capGet caps 2)
    {st with current_blocks := st.current_blocks ++
      [{btype := "PROC".data, name := "PROC ".data ++ procName,
        start_line := ln, end_line := none,
        proc_name := some procName, dataset := some dataset}]}
  | none =>
  match reMatchCaps pBlockMacroG line with
  | some caps =>
    let macroName := pyUpper (capGet caps 1)
    let params := capGet caps 2
    {st with current_blocks := st.current_blocks ++
      [{btype := "MACRO".data, name := "%MACRO ".data ++ macroName,
        start_line := ln, end_line := none,
        macro_name := some macroName, parameters := some (pyStrip params)}]}
  | none => st

/-- `check_block_end` (Gantt_new.py lines 1101-1115): a terminator or
`%MEND` pops the most recent open block, if any. -/
def checkBlockEnd (line : Str) (ln : Nat) (r : GResults) (st : GState) :
    GResults × GState :=
  if reSearchB pRunQuit line || pyIn "%MEND".data (pyUpper line) then
    match st.current_blocks.getLast? with
    | some block =>
      let closed := {block with end_line := some ln}
      ({r with function_blocks := r.function_blocks ++ [closed]},
       {st with current_blocks := st.current_blocks.dropLast})
    | none => (r, st)
  else (r, st)

/-- The `while`-pop loop of `finalize_open_blocks`: popping from the end
of the stack until it is empty visits the blocks in reversed stack order,
so the loop is the fold below over the reversed stack. -/
def finalizeGo (totalLines : Nat) : List BlockInfo → GResults → GResults
  | [], r => r
  | block :: rest, r =>
    finalizeGo totalLines rest
      (let closed := {block with end_line := some totalLines}
       {r with function_blocks := r.function_blocks ++ [closed]})

/-- `finalize_open_blocks` (Gantt_new.py lines 1118-1130; identical
`_finalize_open_blocks` in sas_analysis.py lines 277-282): pop every
remaining open block, forcing its end line to the total line count; the
loop leaves the stack empty. -/
def finalizeOpenBlocks (totalLines : Nat) (r : GResults) (st : GState) :
    GResults × GState :=
  (finalizeGo totalLines st.current_blocks.reverse r,
   {st with current_blocks := []})

end SAS

namespace SAS

/-! ## Detailed PROC/DATA info and the Aggregator (Gantt_new.py) -/

/-- `OUT\s*=\s*([^\s;]+)` (extract_proc_options). -/
def pOptOut : RE :=
  rcat [litW "OUT", ws0, .lit '=', ws0,
        .grp 1 (clsPlus (fun c => !pyIsSpace c && c ≠ ';'))]
/-- `DATA\s*=\s*([^\s;]+)`. -/
def pOptData : RE :=
  rcat [litW "DATA", ws0, .lit '=', ws0,
        .grp 1 (clsPlus (fun c => !pyIsSpace c && c ≠ ';'))]
/-- `DBMS\s*=\s*([^\s;]+)`. -/
def pOptDbms : RE :=
  rcat [litW "DBMS", ws0, .lit '=', ws0,
        .grp 1 (clsPlus (fun c => !pyIsSpace c && c ≠ ';'))]
/-- `DATAFILE\s*=\s*["\']?([^"\';\s]+)["\']?`. -/
def pOptDatafile : RE :=
  rcat [litW "DATAFILE", ws0, .lit '=', ws0, .qmark true (.cls isQuoteCh),
        .grp 1 (clsPlus (fun c => !isQuoteCh c && c ≠ ';' && !pyIsSpace c)),
        .qmark true (.cls isQuoteCh)]
/-- `OUTFILE\s*=\s*["\']?([^"\';\s]+)["\']?`. -/
def pOptOutfile : RE :=
  rcat [litW "OUTFILE", ws0, .lit '=', ws0, .qmark true (.cls isQuoteCh),
        .grp 1 (clsPlus (fun c => !isQuoteCh c && c ≠ ';' && !pyIsSpace c)),
        .qmark true (.cls isQuoteCh)]

/-- The options dict of `extract_proc_options`. -/
structure ProcOptions where
  out : Str := []
  dbms : Str := []
  datafile : Str := []
  data : Str := []
  outfile : Str := []
deriving DecidableEq

/-- `extract_proc_options` (Gantt_new.py lines 538-583): scan the block's
line span; each option is gated by a substring test, then captured. -/
def extractProcOptions (la : List (Nat × LineInfo)) (startLine endLine : Nat) :
    ProcOptions :=
  (List.range' startLine (endLine + 1 - startLine)).foldl
    (fun o ln =>
      match alGet la ln with
      | none => o
      | some info =>
        let line := pyUpper info.original
        let o := if pyIn "OUT=".data line then
            match reSearchCaps pOptOut line with
            | some c => {o with out := pyStrip (capGet c 1)}
            | none => o
          else o
        let o := if pyIn "DATA=".data line then
            match reSearchCaps pOptData line with
            | some c => {o with data := pyStrip (capGet c 1)}
            | none => o
          else o
        let o := if pyIn "DBMS=".data line then
            match reSearchCaps pOptDbms line with
            | some c => {o with dbms := pyStrip (capGet c 1)}
            | none => o
          else o
        let o := if pyIn "DATAFILE=".data line then
            match reSearchCaps pOptDatafile line with
            | some c => {o with datafile := pyStrip (capGet c 1)}
            | none => o
          else o
        if pyIn "OUTFILE=".data line then
          match reSearchCaps pOptOutfile line with
          | some c => {o with outfile := pyStrip (capGet c 1)}
          | none => o
        else o)
    {}

/-- The operation checks of `extract_data_step_operations` (lines 586-630). -/
def dataStepOpChecks : List (Str × RE) :=
  [("SET".data, pKwSpace "SET"), ("MERGE".data, pKwSpace "MERGE"),
   ("BY".data, pKwSpace "BY"), ("RETAIN".data, pKwSpace "RETAIN"),
   ("IF-THEN".data, pIfThen),
   ("ELSE".data, rcat [.wb, litW "ELSE", .wb]),
   ("DO".data, pKwSpace "DO"), ("OUTPUT".data, pKwSemi "OUTPUT"),
   ("FORMAT".data, pKwSpace "FORMAT"), ("LABEL".data, pKwSpace "LABEL"),
   ("LENGTH".data, pKwSpace "LENGTH"), ("ARRAY".data, pKwSpace "ARRAY")]

/-- `list(set(xs))` — CPython iterates a string set in hash order, which is
process-dependent; modelled as order-canonical deduplication (first
occurrence).  No claim below depends on this ordering. -/
def pyListSet (l : List Str) : List Str :=
  l.foldl (fun acc x => if acc.contains x then acc else acc ++ [x]) []

/-- `extract_data_step_operations` (Gantt_new.py lines 586-630). -/
def extractDataStepOperations (la : List (Nat × LineInfo))
    (startLine endLine : Nat) : List Str :=
  let ops :=
    (List.range' startLine (endLine + 1 - startLine)).foldl
      (fun ops ln =>
        match alGet la ln with
        | none => ops
        | some info =>
          let line := pyUpper info.original
          dataStepOpChecks.foldl
            (fun ops ck => if reSearchB ck.2 line then ops ++ [ck.1] else ops)
            ops)
      []
  pyListSet ops

/-- `extract_detailed_proc_info` (Gantt_new.py lines 1133-1181). -/
def extractDetailedProcInfo (r : GResults) : GResults :=
  let r :=
    r.function_blocks.foldl
      (fun r b =>
        if b.proc_name = some "IMPORT".data then
          let o := extractProcOptions r.line_analysis b.start_line
                     (b.end_line.getD 0)
          let d : ProcImportDetail :=
            ⟨"PROC IMPORT".data, b.start_line, o.out, o.dbms, o.datafile⟩
          {r with proc_import_details := r.proc_import_details ++ [d]}
        else r)
      r
  let r :=
    r.function_blocks.foldl
      (fun r b =>
        if b.proc_name = some "EXPORT".data then
          let o := extractProcOptions r.line_analysis b.start_line
                     (b.end_line.getD 0)
          let d : ProcExportDetail :=
            ⟨"PROC EXPORT".data, b.start_line, o.data, o.dbms, o.outfile⟩
          {r with proc_export_details := r.proc_export_details ++ [d]}
        else r)
      r
  r.function_blocks.foldl
    (fun r b =>
      if b.btype = "DATA".data then
        let datasetName := pyJoin " ".data b.datasets
        let datasetType := determineDatasetType (b.datasets.headD [])
        let ops := extractDataStepOperations r.line_analysis b.start_line
                     (b.end_line.getD 0)
        let size : Option Int :=
          match b.end_line with
          | some e => if e ≠ 0 then some ((e : Int) - b.start_line + 1) else none
          | none => none
        let opsText := if ops.isEmpty then "None detected".data
                       else pyJoin ", ".data ops
        let d : DataStepDetail :=
          ⟨datasetName, datasetType, b.start_line, size, opsText⟩
        {r with data_step_details := r.data_step_details ++ [d]}
      else r)
    r

/-- `calculate_complexity_metrics` (Gantt_new.py lines 1184-1199): counts
only — this variant computes no `complexity_score`. -/
def calculateComplexityMetricsG (r : GResults) : GResults :=
  let c : GComplexity :=
    ⟨r.function_blocks.length,
     r.datasets_created.length + r.datasets_used.length,
     r.procedures_used.length,
     r.macros_defined.length,
     r.include_files.length,
     r.system_functions.length,
     r.line_analysis.length⟩
  {r with code_complexity := some c}

/-! ## Driver (Gantt_new.py) -/

/-- `analyze_single_line` (Gantt_new.py lines 1202-1241): record the line
classification (before the blank-line short-circuit), then run every
extractor.  `_totalLines` mirrors the unused `total_lines` parameter. -/
def analyzeSingleLine (src : Option Str) (_totalLines : Nat) (line : Str)
    (ln : Nat) (r : GResults) (st : GState) : GResults × GState :=
  let original := pyStrip line
  let cleaned := pyStrip (cleanLine line)
  let info : LineInfo := ⟨original, cleaned, classifyLine cleaned, src⟩
  let r := {r with line_analysis := alSet r.line_analysis ln info}
  if cleaned.isEmpty then (r, st)
  else
    let st := checkBlockStart cleaned ln st
    let r := analyzeDataOperations cleaned ln r
    let r := analyzeProcedures cleaned ln r
    let rm := analyzeMacrosG cleaned ln r st.macro_stack
    let r := rm.1
    let st := {st with macro_stack := rm.2}
    let r := analyzeSqlOperations cleaned ln r
    let r := analyzeControlStructures cleaned ln r
    let r := analyzeFileOperations cleaned ln r
    let r := analyzeVariables cleaned ln r
    let r := analyzeIncludeFilesG cleaned ln r
    let r := analyzeSystemFunctionsG cleaned ln r
    let p := analyzeSnowflakeReferences line ln r st
    checkBlockEnd cleaned ln p.1 p.2

/-- The `for line_num, line in enumerate(lines, 1)` loop of `analyze_lines`
(each embedded step is total, so the per-line `try/except` never fires). -/
def processLines (src : Option Str) (totalLines : Nat) :
    List Str → Nat → GResults → GState → GResults × GState
  | [], _, r, st => (r, st)
  | l :: rest, ln, r, st =>
    let p := analyzeSingleLine src totalLines l ln r st
    processLines src totalLines rest (ln + 1) p.1 p.2

/-- `analyze_lines` (Gantt_new.py lines 1244-1268). -/
def analyzeLines (lines : List Str) (src : Option Str := none) : GResults :=
  let total := lines.length
  let p := processLines src total lines 1 initResults initState
  let q := finalizeOpenBlocks total p.1 p.2
  let r := extractDetailedProcInfo q.1
  calculateComplexityMetricsG r

end SAS

namespace SAS

/-! ## The sas_analysis.py pipeline (`EnhancedSASAnalyzer`)

The class methods duplicate the Gantt_new.py functions with small
differences: blank lines are skipped before the `line_analysis` write, the
macro analysis has no name stack and never sets end lines, there is no
PROC SQL collector, additional extractors (CALL routines, formats, hash
objects, ODS, timeframes) run, and the aggregator computes a
`complexity_score`. -/

/-- `macros_defined` record of `_analyze_macros` (no parent/end keys). -/
structure SMacroDef where
  line : Nat
  parameters : Str
deriving DecidableEq

/-- `code_complexity` of `_calculate_complexity_metrics` (lines 431-449). -/
structure SComplexity where
  total_functions : Nat
  total_datasets : Nat
  total_procedures : Nat
  total_macros : Nat
  total_includes : Nat
  total_sys_functions : Nat
  complexity_score : Nat
  total_lines : Nat
deriving DecidableEq

/-- The `analysis_results` dict of `EnhancedSASAnalyzer.reset`. -/
structure SResults where
  function_blocks : List BlockInfo := []
  datasets_created : List (Str × List Nat) := []
  datasets_used : List (Str × List Nat) := []
  procedures_used : List (Str × List ProcUse) := []
  macros_defined : List (Str × SMacroDef) := []
  macros_called : List (Str × List Nat) := []
  libraries_defined : List (Str × List Nat) := []
  sql_statements : List (Str × List Nat) := []
  variables_used : List (Str × List Nat) := []
  file_operations : List (Str × List Nat) := []
  control_structures : List (Str × List Nat) := []
  include_files : List (Str × List Nat) := []
  system_functions : List (Str × List Nat) := []
  call_routines : List (Str × List Nat) := []
  formats : List (Str × List Nat) := []
  hash_objects : List (Str × List Nat) := []
  ods_statements : List (Str × List Nat) := []
  timeframe_start : Option (Str × Nat) := none
  timeframe_end : Option (Str × Nat) := none
  code_complexity : Option SComplexity := none
  line_analysis : List (Nat × LineInfo) := []
deriving DecidableEq

/-- The instance state (`self.current_blocks`, `self.include_stack`). -/
structure SState where
  current_blocks : List BlockInfo := []
  include_stack : List Str := []
deriving DecidableEq

/-- `_classify_line` (sas_analysis.py lines 109-128): as `classify_line`
but without the initial re-strip (its input is already stripped). -/
def sasClassifyLine (line : Str) : Str :=
  if reMatchB pClsInclude line then "INCLUDE".data
  else if reMatchB pClsData line then "DATA_STEP".data
  else if reMatchB pClsProc line then "PROCEDURE".data
  else if reMatchB pClsMacroDef line then "MACRO_DEF".data
  else if reMatchB pClsPct line then "MACRO_CALL".data
  else if reMatchB pClsLib line then "LIBRARY".data
  else if reMatchB pClsOds line then "ODS".data
  else if pyIn "RUN;".data line || pyIn "QUIT;".data line then "TERMINATOR".data
  else "STATEMENT".data

/-- `%MACRO\s+([A-Z_][A-Z0-9_]*)(\([^)]*\))?\s*;?` (sas_analysis variant:
the parenthesised part is optional and group 2 keeps the parentheses). -/
def pMacroDefS : RE :=
  rcat [litW "%MACRO", ws1, .grp 1 tokRE,
        .qmark true (.grp 2 (rcat [.lit '(', .rep true (.cls (· ≠ ')')),
                                   .lit ')'])),
        ws0, .qmark true (.lit ';')]

/-- `^\s*%MACRO\s+...`, the anchored form of `_check_block_start`. -/
def pBlockMacroS : RE := .cat ws0 pMacroDefS

/-- `%INCLUDE\s+["\']([^"\']+)["\']` (first `_analyze_include_files` pattern). -/
def pIncS1 : RE :=
  rcat [litW "%INCLUDE", ws1, .cls isQuoteCh,
        .grp 1 (clsPlus (fun c => !isQuoteCh c)), .cls isQuoteCh]
/-- `%INCLUDE\s+([A-Z_][A-Z0-9_]*)`. -/
def pIncS2 : RE := rcat [litW "%INCLUDE", ws1, .grp 1 tokRE]
/-- `%INCLUDE\s+([^\s;]+)`. -/
def pIncS3 : RE :=
  rcat [litW "%INCLUDE", ws1,
        .grp 1 (clsPlus (fun c => !pyIsSpace c && c ≠ ';'))]

/-- SAS function list of `_analyze_system_functions` (lines 145-157). -/
def sysFunctionsS : List Str :=
  ["SUM", "MEAN", "MIN", "MAX", "COUNT", "N", "NMISS",
   "SUBSTR", "TRIM", "STRIP", "LEFT", "RIGHT", "LENGTH",
   "UPCASE", "LOWCASE", "PROPCASE", "COMPRESS", "TRANSLATE",
   "INDEX", "FIND", "SCAN", "CATS", "CATX", "CAT",
   "INPUT", "PUT", "ROUND", "CEIL", "FLOOR", "INT", "ABS",
   "LOG", "EXP", "SQRT", "SIN", "COS", "TAN",
   "TODAY", "DATE", "DATETIME", "TIME", "DATEPART", "TIMEPART",
   "YEAR", "MONTH", "DAY", "WEEKDAY", "MDY", "YMD",
   "INTCK", "INTNX", "DATDIF", "JULDATE",
   "COALESCEC", "COALESCE", "IFC", "IFN", "MISSING",
   "RAND", "RANUNI", "NORMAL", "GAMMA", "BETA"].map String.data

/-- `system_macros` of `_analyze_macros` (line 332). -/
def systemMacrosS : List Str :=
  ["MACRO", "MEND", "LET", "IF", "DO", "END", "EVAL", "STR", "QUOTE",
   "SCAN", "SUBSTR", "INCLUDE"].map String.data

/-- `call_routines` of `_analyze_call_routines` (lines 166-171). -/
def callRoutinesS : List Str :=
  ["SYMPUT", "SYMPUTX", "SYMGET", "SYMGETN",
   "EXECUTE", "SYSTEM", "FILENAME", "LIBNAME",
   "STREAMINIT", "RANUNI", "RANTBL", "VNAME",
   "LABEL", "MISSING", "SORTC", "SORTN"].map String.data

/-- `\bCALL\s+ROUTINE\b`. -/
def pCallRoutine (rn : Str) : RE :=
  rcat [.wb, litW "CALL", ws1, litS rn, .wb]

/-- `\bPROC\s+FORMAT\b`. -/
def pProcFormat : RE := rcat [.wb, litW "PROC", ws1, litW "FORMAT", .wb]
/-- `\bVALUE\s+[A-Z_][A-Z0-9_]*` / `VALUE\s+([A-Z_][A-Z0-9_]*)`. -/
def pValueFmt : RE := rcat [.wb, litW "VALUE", ws1, tokRE]
def pValueFmtCap : RE := rcat [litW "VALUE", ws1, .grp 1 tokRE]
/-- `\bINFORMAT\s+`. -/
def pInformat : RE := rcat [.wb, litW "INFORMAT", ws1]

/-- `hash_patterns` of `_analyze_hash_objects` (lines 194-203). -/
def hashPatterns : List (Str × RE) :=
  [("DECLARE_HASH".data, rcat [litW "DECLARE", ws1, litW "HASH", ws1, .grp 1 tokRE]),
   ("DECLARE_HITER".data, rcat [litW "DECLARE", ws1, litW "HITER", ws1, .grp 1 tokRE]),
   ("DEFINEKEY".data, rcat [.grp 1 tokRE, .lit '.', litW "DEFINEKEY"]),
   ("DEFINEDATA".data, rcat [.grp 1 tokRE, .lit '.', litW "DEFINEDATA"]),
   ("DEFINEDONE".data, rcat [.grp 1 tokRE, .lit '.', litW "DEFINEDONE"]),
   ("ADD".data, rcat [.grp 1 tokRE, .lit '.', litW "ADD"]),
   ("FIND".data, rcat [.grp 1 tokRE, .lit '.', litW "FIND"]),
   ("CHECK".data, rcat [.grp 1 tokRE, .lit '.', litW "CHECK"])]

/-- `ods_operations` of `_analyze_ods_statements` (lines 212-216). -/
def odsOperationsS : List Str :=
  ["HTML", "PDF", "RTF", "EXCEL", "POWERPOINT", "CSV",
   "LISTING", "OUTPUT", "TRACE", "SELECT", "EXCLUDE",
   "GRAPHICS", "RESULTS", "DESTINATIONS"].map String.data

/-- `\bODS\s+OP\b`. -/
def pOdsOp (op : Str) : RE := rcat [.wb, litW "ODS", ws1, litS op, .wb]

/-- The four `timestamp_patterns` of `_analyze_timeframes` (lines 411-416);
the group wraps the whole pattern so that findall yields the full match. -/
def tsPatterns : List RE :=
  [.grp 1 (rcat [digitsRE 4, .lit '-', digitsRE 2, .lit '-', digitsRE 2, ws1,
                 digitsRE 2, .lit ':', digitsRE 2, .lit ':', digitsRE 2]),
   .grp 1 (rcat [digitsRE 2, .lit '/', digitsRE 2, .lit '/', digitsRE 4, ws1,
                 digitsRE 2, .lit ':', digitsRE 2, .lit ':', digitsRE 2]),
   .grp 1 (rcat [digitsRE 4, .lit '/', digitsRE 2, .lit '/', digitsRE 2, ws1,
                 digitsRE 2, .lit ':', digitsRE 2, .lit ':', digitsRE 2]),
   .grp 1 (rcat [digitsRE 2, .lit '-', digitsRE 2, .lit '-', digitsRE 4, ws1,
                 digitsRE 2, .lit ':', digitsRE 2, .lit ':', digitsRE 2])]

end SAS

namespace SAS

/-! ## sas_analysis.py extractors -/

/-- `_analyze_include_files` (lines 130-141): three findall passes, raw
captures appended. -/
def sasAnalyzeIncludeFiles (line : Str) (ln : Nat) (r : SResults) : SResults :=
  [pIncS1, pIncS2, pIncS3].foldl
    (fun r pat =>
      (reFindAll pat line).foldl
        (fun r caps =>
          {r with include_files := alApp r.include_files (capGet caps 1) ln})
        r)
    r

/-- `_analyze_system_functions` (lines 143-162). -/
def sasAnalyzeSystemFunctions (line : Str) (ln : Nat) (r : SResults) : SResults :=
  sysFunctionsS.foldl
    (fun r f =>
      if reSearchB (pFnCall f) line then
        {r with system_functions := alApp r.system_functions f ln}
      else r)
    r

/-- `_analyze_call_routines` (lines 164-176). -/
def sasAnalyzeCallRoutines (line : Str) (ln : Nat) (r : SResults) : SResults :=
  callRoutinesS.foldl
    (fun r rn =>
      if reSearchB (pCallRoutine rn) line then
        let key := "CALL_".data ++ rn
        {r with call_routines := alApp r.call_routines key ln}
      else r)
    r

/-- `_analyze_formats` (lines 178-190). -/
def sasAnalyzeFormats (line : Str) (ln : Nat) (r : SResults) : SResults :=
  let r :=
    if reSearchB pProcFormat line then
      {r with formats := alApp r.formats "PROC_FORMAT".data ln}
    else r
  let r :=
    if reSearchB pValueFmt line then
      match reSearchCaps pValueFmtCap line with
      | some caps =>
        let key := "VALUE_".data ++ capGet caps 1
        {r with formats := alApp r.formats key ln}
      | none => r
    else r
  if reSearchB pInformat line then
    {r with formats := alApp r.formats "INFORMAT".data ln}
  else r

/-- `_analyze_hash_objects` (lines 192-208). -/
def sasAnalyzeHashObjects (line : Str) (ln : Nat) (r : SResults) : SResults :=
  hashPatterns.foldl
    (fun r hp =>
      (reFindAll hp.2 line).foldl
        (fun r caps =>
          let key := "HASH_".data ++ hp.1 ++ "_".data ++ capGet caps 1
          {r with hash_objects := alApp r.hash_objects key ln})
        r)
    r

/-- `_analyze_ods_statements` (lines 210-220). -/
def sasAnalyzeOdsStatements (line : Str) (ln : Nat) (r : SResults) : SResults :=
  odsOperationsS.foldl
    (fun r op =>
      if reSearchB (pOdsOp op) line then
        let key := "ODS_".data ++ op
        {r with ods_statements := alApp r.ods_statements key ln}
      else r)
    r

/-- `_check_block_start` (lines 222-267): as the Gantt version, but group
captures are stored without re-uppercasing and the macro parameters keep
their parentheses. -/
def sasCheckBlockStart (line : Str) (ln : Nat) (st : SState) : SState :=
  match reMatchCaps pBlockData line with
  | some caps =>
    let datasets := pySplitWs (capGet caps 1)
    {st with current_blocks := st.current_blocks ++
      [{btype := "DATA".data,
        name := "DATA ".data ++ pyJoin " ".data datasets,
        start_line := ln, end_line := none, datasets := datasets}]}
  | none =>
  match reMatchCaps pBlockProc line with
  | some caps =>
    let procName := capGet caps 1
    let dataset := if (capGet caps 2).isEmpty then "UNKNOWN".data
                   else capGet caps 2
    {st with current_blocks := st.current_blocks ++
      [{btype := "PROC".data, name := "PROC ".data ++ procName,
        start_line := ln, end_line := none,
        proc_name := some procName, dataset := some dataset}]}
  | none =>
  match reMatchCaps pBlockMacroS line with
  | some caps =>
    let macroName := capGet caps 1
    let params := capGet caps 2
    {st with current_blocks := st.current_blocks ++
      [{btype := "MACRO".data, name := "%MACRO ".data ++ macroName,
        start_line := ln, end_line := none,
        macro_name := some macroName, parameters := some params}]}
  | none => st

/-- `_check_block_end` (sas_analysis.py lines 269-275): plain substring
tests `'RUN;' in line or 'QUIT;' in line or '%MEND' in line`. -/
def sasCheckBlockEnd (line : Str) (ln : Nat) (r : SResults) (st : SState) :
    SResults × SState :=
  if pyIn "RUN;".data line || pyIn "QUIT;".data line ||
      pyIn "%MEND".data line then
    match st.current_blocks.getLast? with
    | some block =>
      let closed := {block with end_line := some ln}
      ({r with function_blocks := r.function_blocks ++ [closed]},
       {st with current_blocks := st.current_blocks.dropLast})
    | none => (r, st)
  else (r, st)

/-- The `while`-pop loop of `_finalize_open_blocks` as a fold over the
reversed stack (see `finalizeGo`). -/
def sasFinalizeGo (totalLines : Nat) : List BlockInfo → SResults → SResults
  | [], r => r
  | block :: rest, r =>
    sasFinalizeGo totalLines rest
      (let closed := {block with end_line := some totalLines}
       {r with function_blocks := r.function_blocks ++ [closed]})

/-- `_finalize_open_blocks` (lines 277-282). -/
def sasFinalizeOpenBlocks (totalLines : Nat) (r : SResults) (st : SState) :
    SResults × SState :=
  (sasFinalizeGo totalLines st.current_blocks.reverse r,
   {st with current_blocks := []})

/-- `_analyze_data_operations` (lines 284-305): no uppercasing of
captures, no `create_table_info`. -/
def sasAnalyzeDataOperations (line : Str) (ln : Nat) (r : SResults) : SResults :=
  let r :=
    match reSearchCaps pDataSearch line with
    | some caps =>
      (pySplitWs (capGet caps 1)).foldl
        (fun r ds => {r with datasets_created := alApp r.datasets_created ds ln})
        r
    | none => r
  usageVerbs.foldl
    (fun r verb =>
      (reFindAll (pUsage verb) line).foldl
        (fun r caps =>
          (pySplitWs (capGet caps 1)).foldl
            (fun r ds =>
              let key := verb.data ++ "_".data ++ ds
              {r with datasets_used := alApp r.datasets_used key ln})
            r)
        r)
    r

/-- `_analyze_procedures` (lines 307-316). -/
def sasAnalyzeProcedures (line : Str) (ln : Nat) (r : SResults) : SResults :=
  match reSearchCaps pProcSearch line with
  | some caps =>
    let procName := capGet caps 1
    let dataset := if (capGet caps 2).isEmpty then "UNKNOWN".data
                   else capGet caps 2
    {r with procedures_used := alApp r.procedures_used procName ⟨ln, dataset⟩}
  | none => r

/-- `_analyze_macros` (sas_analysis.py lines 318-335): no macro stack, no
`%MEND` handling, parameters kept verbatim (with parentheses). -/
def sasAnalyzeMacros (line : Str) (ln : Nat) (r : SResults) : SResults :=
  let r :=
    match reSearchCaps pMacroDefS line with
    | some caps =>
      let nm := capGet caps 1
      let params := capGet caps 2
      {r with macros_defined := alSet r.macros_defined nm ⟨ln, params⟩}
    | none => r
  (reFindAll pMacroCall line).foldl
    (fun r caps =>
      let nm := capGet caps 1
      if !systemMacrosS.contains nm then
        {r with macros_called := alApp r.macros_called nm ln}
      else r)
    r

/-- `_analyze_sql_operations` (lines 337-350). -/
def sasAnalyzeSqlOperations (line : Str) (ln : Nat) (r : SResults) : SResults :=
  sqlOperations.foldl
    (fun r op =>
      if reSearchB (pSqlKw op) line then
        {r with sql_statements := alApp r.sql_statements (sqlOpKey op) ln}
      else r)
    r

/-- `_analyze_control_structures` (lines 352-369). -/
def sasAnalyzeControlStructures (line : Str) (ln : Nat) (r : SResults) : SResults :=
  controlPatterns.foldl
    (fun r sp =>
      if reSearchB sp.2 line then
        {r with control_structures := alApp r.control_structures sp.1 ln}
      else r)
    r

/-- `_analyze_file_operations` (lines 371-390). -/
def sasAnalyzeFileOperations (line : Str) (ln : Nat) (r : SResults) : SResults :=
  let r :=
    match reSearchCaps pLibname line with
    | some caps =>
      {r with libraries_defined := alApp r.libraries_defined (capGet caps 1) ln}
    | none => r
  fileOpsPatterns.foldl
    (fun r sp =>
      if reSearchB sp.2 line then
        {r with file_operations := alApp r.file_operations sp.1 ln}
      else r)
    r

/-- `_analyze_variables` (lines 392-407). -/
def sasAnalyzeVariables (line : Str) (ln : Nat) (r : SResults) : SResults :=
  varOpVerbs.foldl
    (fun r verb =>
      (reFindAll (pVarOp verb) line).foldl
        (fun r caps =>
          (pySplitWs (capGet caps 1)).foldl
            (fun r v =>
              let key := verb.data ++ "_".data ++ v
              {r with variables_used := alApp r.variables_used key ln})
            r)
        r)
    r

/-- `_analyze_timeframes` (lines 409-429): runs on the stripped original
line; keeps the lexicographically least/greatest timestamps. -/
def sasAnalyzeTimeframes (line : Str) (ln : Nat) (r : SResults) : SResults :=
  tsPatterns.foldl
    (fun r pat =>
      (reFindAll pat line).foldl
        (fun r caps =>
          let ts := capGet caps 1
          let r :=
            match r.timeframe_start with
            | none => {r with timeframe_start := some (ts, ln)}
            | some cur =>
              if pyLtStr ts cur.1 then {r with timeframe_start := some (ts, ln)}
              else r
          match r.timeframe_end with
          | none => {r with timeframe_end := some (ts, ln)}
          | some cur =>
            if pyLtStr cur.1 ts then {r with timeframe_end := some (ts, ln)}
            else r)
        r)
    r

/-- `_calculate_complexity_metrics` (sas_analysis.py lines 431-449):
`total_macros` counts defined and called macros, and
`complexity_score = total_functions + total_procedures + total_macros +
total_includes`. -/
def sasCalculateComplexityMetrics (r : SResults) : SResults :=
  let totalFunctions := r.function_blocks.length
  let totalDatasets := r.datasets_created.length + r.datasets_used.length
  let totalProcedures := r.procedures_used.length
  let totalMacros := r.macros_defined.length + r.macros_called.length
  let totalIncludes := r.include_files.length
  let totalSysFunctions := r.system_functions.length
  let c : SComplexity :=
    ⟨totalFunctions, totalDatasets, totalProcedures, totalMacros,
     totalIncludes, totalSysFunctions,
     totalFunctions + totalProcedures + totalMacros + totalIncludes,
     r.line_analysis.length⟩
  {r with code_complexity := some c}

/-- `_analyze_single_line` (sas_analysis.py lines 66-101): note the blank
line short-circuit comes BEFORE the `line_analysis` write, unlike
`Gantt_new.analyze_single_line`. -/
def sasAnalyzeSingleLine (src : Option Str) (_totalLines : Nat) (line : Str)
    (ln : Nat) (r : SResults) (st : SState) : SResults × SState :=
  let original := pyStrip line
  let cleaned := pyStrip (cleanLine line)
  if cleaned.isEmpty then (r, st)
  else
    let info : LineInfo := ⟨original, cleaned, sasClassifyLine cleaned, src⟩
    let r := {r with line_analysis := alSet r.line_analysis ln info}
    let st := sasCheckBlockStart cleaned ln st
    let r := sasAnalyzeDataOperations cleaned ln r
    let r := sasAnalyzeProcedures cleaned ln r
    let r := sasAnalyzeMacros cleaned ln r
    let r := sasAnalyzeSqlOperations cleaned ln r
    let r := sasAnalyzeControlStructures cleaned ln r
    let r := sasAnalyzeFileOperations cleaned ln r
    let r := sasAnalyzeVariables cleaned ln r
    let r := sasAnalyzeIncludeFiles cleaned ln r
    let r := sasAnalyzeSystemFunctions cleaned ln r
    let r := sasAnalyzeCallRoutines cleaned ln r
    let r := sasAnalyzeFormats cleaned ln r
    let r := sasAnalyzeHashObjects cleaned ln r
    let r := sasAnalyzeOdsStatements cleaned ln r
    let r := sasAnalyzeTimeframes original ln r
    sasCheckBlockEnd cleaned ln r st

/-- The line loop of `EnhancedSASAnalyzer.analyze_lines`. -/
def sasProcessLines (src : Option Str) (totalLines : Nat) :
    List Str → Nat → SResults → SState → SResults × SState
  | [], _, r, st => (r, st)
  | l :: rest, ln, r, st =>
    let p := sasAnalyzeSingleLine src totalLines l ln r st
    sasProcessLines src totalLines rest (ln + 1) p.1 p.2

/-- `EnhancedSASAnalyzer.analyze_lines` (lines 53-64) run on an analyzer
whose instance state is `prior`: `self.reset()` discards `prior` entirely,
then the single pass, finalization and the aggregator run. -/
def sasAnalyzeLinesFrom (prior : SState × SResults) (lines : List Str)
    (src : Option Str := none) : SResults :=
  let _ := prior   -- self.reset() replaces all carried-over state
  let total := lines.length
  let p := sasProcessLines src total lines 1 {} {}
  let q := sasFinalizeOpenBlocks total p.1 p.2
  sasCalculateComplexityMetrics q.1

/-- `analyze_lines` on a freshly constructed `EnhancedSASAnalyzer`. -/
def sasAnalyzeLines (lines : List Str) (src : Option Str := none) : SResults :=
  sasAnalyzeLinesFrom ({}, {}) lines src

end SAS

namespace SAS

/-! ## Generic helper lemmas -/

theorem foldl_preserve {α β γ : Type} (proj : β → γ) {step : β → α → β}
    (h : ∀ b a, proj (step b a) = proj b) :
    ∀ (l : List α) (b : β), proj (l.foldl step b) = proj b := by
  intro l
  induction l with
  | nil => intro b; rfl
  | cons a t ih => intro b; rw [List.foldl_cons, ih, h]

theorem mem_of_getLastQ {α : Type} :
    ∀ {l : List α} {a : α}, l.getLast? = some a → a ∈ l
  | [], _, h => by simp [List.getLast?] at h
  | [x], a, h => by
    have hx : some x = some a := h
    simp at hx
    simp [hx]
  | x :: y :: u, a, h => by
    rw [List.getLast?_cons_cons] at h
    exact List.mem_cons_of_mem x (mem_of_getLastQ h)

theorem mem_of_mem_dropLast {α : Type} {l : List α} {a : α}
    (h : a ∈ l.dropLast) : a ∈ l := by
  induction l with
  | nil => simp at h
  | cons x t ih =>
    cases t with
    | nil => simp at h
    | cons y u =>
      rw [List.dropLast_cons₂] at h
      rcases List.mem_cons.mp h with h | h
      · simp [h]
      · exact List.mem_cons_of_mem x (ih h)

theorem range1_concat (k : Nat) :
    List.range' 1 (k + 1) = List.range' 1 k ++ [k + 1] := by
  have h := List.range'_1_concat 1 k
  simpa [Nat.add_comm] using h

theorem notMem_range1 (k : Nat) : (k + 1) ∉ List.range' 1 k := by
  intro h
  rw [List.mem_range'] at h
  obtain ⟨i, hi, he⟩ := h
  omega

theorem alSet_notMem {κ β : Type} [DecidableEq κ]
    {m : List (κ × β)} {k : κ} (v : β) (h : k ∉ m.map Prod.fst) :
    alSet m k v = m ++ [(k, v)] := by
  induction m with
  | nil => rfl
  | cons p t ih =>
    simp only [List.map_cons, List.mem_cons] at h
    push_neg at h
    simp only [alSet]
    rw [if_neg (fun he => h.1 he.symm)]
    rw [ih h.2]
    simp

theorem alSet_map_fst_notMem {κ β : Type} [DecidableEq κ]
    {m : List (κ × β)} {k : κ} (v : β) (h : k ∉ m.map Prod.fst) :
    (alSet m k v).map Prod.fst = m.map Prod.fst ++ [k] := by
  rw [alSet_notMem v h]
  simp

end SAS

namespace SAS

/-! ## Frame lemmas: which result fields each extractor leaves unchanged -/

theorem sqlOps_la (l : Str) (n : Nat) (r : GResults) :
    (analyzeSqlOperations l n r).line_analysis = r.line_analysis := by
  unfold analyzeSqlOperations
  refine foldl_preserve (fun x : GResults => x.line_analysis) ?_ _ _
  intro b a
  split <;> rfl

theorem sqlOps_fb (l : Str) (n : Nat) (r : GResults) :
    (analyzeSqlOperations l n r).function_blocks = r.function_blocks := by
  unfold analyzeSqlOperations
  refine foldl_preserve (fun x : GResults => x.function_blocks) ?_ _ _
  intro b a
  split <;> rfl

theorem sqlOps_sq (l : Str) (n : Nat) (r : GResults) :
    (analyzeSqlOperations l n r).snowflake_queries = r.snowflake_queries := by
  unfold analyzeSqlOperations
  refine foldl_preserve (fun x : GResults => x.snowflake_queries) ?_ _ _
  intro b a
  split <;> rfl

end SAS

namespace SAS

theorem ctl_la (l : Str) (n : Nat) (r : GResults) :
    (analyzeControlStructures l n r).line_analysis = r.line_analysis := by
  unfold analyzeControlStructures
  refine (foldl_preserve (fun x : GResults => x.line_analysis) ?_ _ _).trans ?_
  · intro b a
    split <;> rfl
  · rfl

theorem ctl_fb (l : Str) (n : Nat) (r : GResults) :
    (analyzeControlStructures l n r).function_blocks = r.function_blocks := by
  unfold analyzeControlStructures
  refine (foldl_preserve (fun x : GResults => x.function_blocks) ?_ _ _).trans ?_
  · intro b a
    split <;> rfl
  · rfl

theorem ctl_sq (l : Str) (n : Nat) (r : GResults) :
    (analyzeControlStructures l n r).snowflake_queries = r.snowflake_queries := by
  unfold analyzeControlStructures
  refine (foldl_preserve (fun x : GResults => x.snowflake_queries) ?_ _ _).trans ?_
  · intro b a
    split <;> rfl
  · rfl

theorem sysG_la (l : Str) (n : Nat) (r : GResults) :
    (analyzeSystemFunctionsG l n r).line_analysis = r.line_analysis := by
  unfold analyzeSystemFunctionsG
  refine (foldl_preserve (fun x : GResults => x.line_analysis) ?_ _ _).trans ?_
  · intro b a
    split <;> rfl
  · rfl

theorem sysG_fb (l : Str) (n : Nat) (r : GResults) :
    (analyzeSystemFunctionsG l n r).function_blocks = r.function_blocks := by
  unfold analyzeSystemFunctionsG
  refine (foldl_preserve (fun x : GResults => x.function_blocks) ?_ _ _).trans ?_
  · intro b a
    split <;> rfl
  · rfl

theorem sysG_sq (l : Str) (n : Nat) (r : GResults) :
    (analyzeSystemFunctionsG l n r).snowflake_queries = r.snowflake_queries := by
  unfold analyzeSystemFunctionsG
  refine (foldl_preserve (fun x : GResults => x.snowflake_queries) ?_ _ _).trans ?_
  · intro b a
    split <;> rfl
  · rfl

theorem procs_la (l : Str) (n : Nat) (r : GResults) :
    (analyzeProcedures l n r).line_analysis = r.line_analysis := by
  unfold analyzeProcedures
  cases reSearchCaps pProcSearch l <;> rfl

theorem procs_fb (l : Str) (n : Nat) (r : GResults) :
    (analyzeProcedures l n r).function_blocks = r.function_blocks := by
  unfold analyzeProcedures
  cases reSearchCaps pProcSearch l <;> rfl

theorem procs_sq (l : Str) (n : Nat) (r : GResults) :
    (analyzeProcedures l n r).snowflake_queries = r.snowflake_queries := by
  unfold analyzeProcedures
  cases reSearchCaps pProcSearch l <;> rfl

theorem fileOps_la (l : Str) (n : Nat) (r : GResults) :
    (analyzeFileOperations l n r).line_analysis = r.line_analysis := by
  unfold analyzeFileOperations
  cases reSearchCaps pLibname l <;>
  · refine (foldl_preserve (fun x : GResults => x.line_analysis) ?_ _ _).trans ?_
    · intro b a
      split <;> rfl
    · rfl

theorem fileOps_fb (l : Str) (n : Nat) (r : GResults) :
    (analyzeFileOperations l n r).function_blocks = r.function_blocks := by
  unfold analyzeFileOperations
  cases reSearchCaps pLibname l <;>
  · refine (foldl_preserve (fun x : GResults => x.function_blocks) ?_ _ _).trans ?_
    · intro b a
      split <;> rfl
    · rfl

theorem fileOps_sq (l : Str) (n : Nat) (r : GResults) :
    (analyzeFileOperations l n r).snowflake_queries = r.snowflake_queries := by
  unfold analyzeFileOperations
  cases reSearchCaps pLibname l <;>
  · refine (foldl_preserve (fun x : GResults => x.snowflake_queries) ?_ _ _).trans ?_
    · intro b a
      split <;> rfl
    · rfl

theorem dataOps_la (l : Str) (n : Nat) (r : GResults) :
    (analyzeDataOperations l n r).line_analysis = r.line_analysis := by
  unfold analyzeDataOperations
  cases reSearchCaps pDataSearch l with
  | none =>
    refine (foldl_preserve (fun x : GResults => x.line_analysis) ?_ _ _).trans ?_
    · intro b a
      refine (foldl_preserve (fun x : GResults => x.line_analysis) ?_ _ _).trans ?_
      · intro b2 a2
        refine (foldl_preserve (fun x : GResults => x.line_analysis) ?_ _ _).trans ?_
        · intro b3 a3
          rfl
        · rfl
      · rfl
    · rfl
  | some caps =>
    refine (foldl_preserve (fun x : GResults => x.line_analysis) ?_ _ _).trans ?_
    · intro b a
      refine (foldl_preserve (fun x : GResults => x.line_analysis) ?_ _ _).trans ?_
      · intro b2 a2
        refine (foldl_preserve (fun x : GResults => x.line_analysis) ?_ _ _).trans ?_
        · intro b3 a3
          rfl
        · rfl
      · rfl
    · refine (foldl_preserve (fun x : GResults => x.line_analysis) ?_ _ _).trans ?_
      · intro b a
        rfl
      · rfl

theorem dataOps_fb (l : Str) (n : Nat) (r : GResults) :
    (analyzeDataOperations l n r).function_blocks = r.function_blocks := by
  unfold analyzeDataOperations
  cases reSearchCaps pDataSearch l with
  | none =>
    refine (foldl_preserve (fun x : GResults => x.function_blocks) ?_ _ _).trans ?_
    · intro b a
      refine (foldl_preserve (fun x : GResults => x.function_blocks) ?_ _ _).trans ?_
      · intro b2 a2
        refine (foldl_preserve (fun x : GResults => x.function_blocks) ?_ _ _).trans ?_
        · intro b3 a3
          rfl
        · rfl
      · rfl
    · rfl
  | some caps =>
    refine (foldl_preserve (fun x : GResults => x.function_blocks) ?_ _ _).trans ?_
    · intro b a
      refine (foldl_preserve (fun x : GResults => x.function_blocks) ?_ _ _).trans ?_
      · intro b2 a2
        refine (foldl_preserve (fun x : GResults => x.function_blocks) ?_ _ _).trans ?_
        · intro b3 a3
          rfl
        · rfl
      · rfl
    · refine (foldl_preserve (fun x : GResults => x.function_blocks) ?_ _ _).trans ?_
      · intro b a
        rfl
      · rfl

theorem dataOps_sq (l : Str) (n : Nat) (r : GResults) :
    (analyzeDataOperations l n r).snowflake_queries = r.snowflake_queries := by
  unfold analyzeDataOperations
  cases reSearchCaps pDataSearch l with
  | none =>
    refine (foldl_preserve (fun x : GResults => x.snowflake_queries) ?_ _ _).trans ?_
    · intro b a
      refine (foldl_preserve (fun x : GResults => x.snowflake_queries) ?_ _ _).trans ?_
      · intro b2 a2
        refine (foldl_preserve (fun x : GResults => x.snowflake_queries) ?_ _ _).trans ?_
        · intro b3 a3
          rfl
        · rfl
      · rfl
    · rfl
  | some caps =>
    refine (foldl_preserve (fun x : GResults => x.snowflake_queries) ?_ _ _).trans ?_
    · intro b a
      refine (foldl_preserve (fun x : GResults => x.snowflake_queries) ?_ _ _).trans ?_
      · intro b2 a2
        refine (foldl_preserve (fun x : GResults => x.snowflake_queries) ?_ _ _).trans ?_
        · intro b3 a3
          rfl
        · rfl
      · rfl
    · refine (foldl_preserve (fun x : GResults => x.snowflake_queries) ?_ _ _).trans ?_
      · intro b a
        rfl
      · rfl

theorem vars_la (l : Str) (n : Nat) (r : GResults) :
    (analyzeVariables l n r).line_analysis = r.line_analysis := by
  unfold analyzeVariables
  refine (foldl_preserve (fun x : GResults => x.line_analysis) ?_ _ _).trans ?_
  · intro b a
    refine (foldl_preserve (fun x : GResults => x.line_analysis) ?_ _ _).trans ?_
    · intro b2 a2
      refine (foldl_preserve (fun x : GResults => x.line_analysis) ?_ _ _).trans ?_
      · intro b3 a3
        rfl
      · rfl
    · rfl
  · rfl

theorem vars_fb (l : Str) (n : Nat) (r : GResults) :
    (analyzeVariables l n r).function_blocks = r.function_blocks := by
  unfold analyzeVariables
  refine (foldl_preserve (fun x : GResults => x.function_blocks) ?_ _ _).trans ?_
  · intro b a
    refine (foldl_preserve (fun x : GResults => x.function_blocks) ?_ _ _).trans ?_
    · intro b2 a2
      refine (foldl_preserve (fun x : GResults => x.function_blocks) ?_ _ _).trans ?_
      · intro b3 a3
        rfl
      · rfl
    · rfl
  · rfl

theorem vars_sq (l : Str) (n : Nat) (r : GResults) :
    (analyzeVariables l n r).snowflake_queries = r.snowflake_queries := by
  unfold analyzeVariables
  refine (foldl_preserve (fun x : GResults => x.snowflake_queries) ?_ _ _).trans ?_
  · intro b a
    refine (foldl_preserve (fun x : GResults => x.snowflake_queries) ?_ _ _).trans ?_
    · intro b2 a2
      refine (foldl_preserve (fun x : GResults => x.snowflake_queries) ?_ _ _).trans ?_
      · intro b3 a3
        rfl
      · rfl
    · rfl
  · rfl

set_option maxHeartbeats 1000000 in
theorem incG_la (l : Str) (n : Nat) (r : GResults) :
    (analyzeIncludeFilesG l n r).line_analysis = r.line_analysis := by
  unfold analyzeIncludeFilesG
  refine (foldl_preserve (fun x : GResults => x.line_analysis) ?_ _ _).trans ?_
  · intro b a
    dsimp only
    repeat' split
    all_goals rfl
  · rfl

set_option maxHeartbeats 1000000 in
theorem incG_fb (l : Str) (n : Nat) (r : GResults) :
    (analyzeIncludeFilesG l n r).function_blocks = r.function_blocks := by
  unfold analyzeIncludeFilesG
  refine (foldl_preserve (fun x : GResults => x.function_blocks) ?_ _ _).trans ?_
  · intro b a
    dsimp only
    repeat' split
    all_goals rfl
  · rfl

set_option maxHeartbeats 1000000 in
theorem incG_sq (l : Str) (n : Nat) (r : GResults) :
    (analyzeIncludeFilesG l n r).snowflake_queries = r.snowflake_queries := by
  unfold analyzeIncludeFilesG
  refine (foldl_preserve (fun x : GResults => x.snowflake_queries) ?_ _ _).trans ?_
  · intro b a
    dsimp only
    repeat' split
    all_goals rfl
  · rfl

theorem macrosG_la (l : Str) (n : Nat) (r : GResults) (st : List Str) :
    ((analyzeMacrosG l n r st).1).line_analysis = r.line_analysis := by
  unfold analyzeMacrosG
  dsimp only
  repeat' split
  all_goals
    refine (foldl_preserve (fun x : GResults => x.line_analysis) ?_ _ _).trans ?_ <;>
      first
        | rfl
        | (intro b a
           split <;> rfl)

theorem macrosG_fb (l : Str) (n : Nat) (r : GResults) (st : List Str) :
    ((analyzeMacrosG l n r st).1).function_blocks = r.function_blocks := by
  unfold analyzeMacrosG
  dsimp only
  repeat' split
  all_goals
    refine (foldl_preserve (fun x : GResults => x.function_blocks) ?_ _ _).trans ?_ <;>
      first
        | rfl
        | (intro b a
           split <;> rfl)

theorem macrosG_sq (l : Str) (n : Nat) (r : GResults) (st : List Str) :
    ((analyzeMacrosG l n r st).1).snowflake_queries = r.snowflake_queries := by
  unfold analyzeMacrosG
  dsimp only
  repeat' split
  all_goals
    refine (foldl_preserve (fun x : GResults => x.snowflake_queries) ?_ _ _).trans ?_ <;>
      first
        | rfl
        | (intro b a
           split <;> rfl)

end SAS

namespace SAS

/-! ## Frame lemmas for the SQL collector and the Block Tracker -/

theorem snowflake_la (l : Str) (n : Nat) (r : GResults) (st : GState) :
    ((analyzeSnowflakeReferences l n r st).1).line_analysis = r.line_analysis := by
  unfold analyzeSnowflakeReferences
  dsimp only
  repeat' split
  all_goals first
    | rfl
    | (refine (foldl_preserve (fun x : GResults => x.line_analysis) ?_ _ _).trans ?_ <;>
        first
          | rfl
          | (intro b a
             first
               | rfl
               | (refine (foldl_preserve (fun x : GResults => x.line_analysis) ?_ _ _).trans ?_ <;>
                   first
                     | rfl
                     | (intro b2 a2
                        split <;> rfl))))

theorem snowflake_fb (l : Str) (n : Nat) (r : GResults) (st : GState) :
    ((analyzeSnowflakeReferences l n r st).1).function_blocks = r.function_blocks := by
  unfold analyzeSnowflakeReferences
  dsimp only
  repeat' split
  all_goals first
    | rfl
    | (refine (foldl_preserve (fun x : GResults => x.function_blocks) ?_ _ _).trans ?_ <;>
        first
          | rfl
          | (intro b a
             first
               | rfl
               | (refine (foldl_preserve (fun x : GResults => x.function_blocks) ?_ _ _).trans ?_ <;>
                   first
                     | rfl
                     | (intro b2 a2
                        split <;> rfl))))

theorem snowflake_cb (l : Str) (n : Nat) (r : GResults) (st : GState) :
    ((analyzeSnowflakeReferences l n r st).2).current_blocks = st.current_blocks := by
  unfold analyzeSnowflakeReferences
  dsimp only
  repeat' split
  all_goals rfl

theorem snowflake_ms (l : Str) (n : Nat) (r : GResults) (st : GState) :
    ((analyzeSnowflakeReferences l n r st).2).macro_stack = st.macro_stack := by
  unfold analyzeSnowflakeReferences
  dsimp only
  repeat' split
  all_goals rfl

/-- If the upper-cased raw line contains neither `QUIT;` nor `RUN;`, the
SQL collector cannot emit: `snowflake_queries` is unchanged. -/
theorem snowflake_sq_noterm (l : Str) (n : Nat) (r : GResults) (st : GState)
    (hq : pyIn "QUIT;".data (pyUpper l) = false)
    (hr : pyIn "RUN;".data (pyUpper l) = false) :
    ((analyzeSnowflakeReferences l n r st).1).snowflake_queries =
      r.snowflake_queries := by
  unfold analyzeSnowflakeReferences
  dsimp only
  rw [hq, hr]
  simp only [Bool.or_self, Bool.and_false]
  split
  · rfl
  · split
    · simp_all
    · repeat' split
      all_goals
        refine (foldl_preserve (fun x : GResults => x.snowflake_queries) ?_ _ _).trans ?_ <;>
          first
            | rfl
            | (intro b a
               refine (foldl_preserve (fun x : GResults => x.snowflake_queries) ?_ _ _).trans ?_ <;>
                 first
                   | rfl
                   | (intro b2 a2
                      split <;> rfl))

theorem cbe_la (l : Str) (n : Nat) (r : GResults) (st : GState) :
    ((checkBlockEnd l n r st).1).line_analysis = r.line_analysis := by
  unfold checkBlockEnd
  repeat' split
  all_goals rfl

theorem cbe_sq (l : Str) (n : Nat) (r : GResults) (st : GState) :
    ((checkBlockEnd l n r st).1).snowflake_queries = r.snowflake_queries := by
  unfold checkBlockEnd
  repeat' split
  all_goals rfl

/-- A closed block of the final list: its end line is set, at or after its
start line. -/
def BlockClosedOK (b : BlockInfo) : Prop :=
  ∃ e, b.end_line = some e ∧ b.start_line ≤ e

theorem cbe_blocks (l : Str) (n : Nat) (r : GResults) (st : GState)
    (hfb : ∀ b ∈ r.function_blocks, BlockClosedOK b)
    (hcb : ∀ b ∈ st.current_blocks, b.start_line ≤ n) :
    (∀ b ∈ ((checkBlockEnd l n r st).1).function_blocks, BlockClosedOK b) ∧
    (∀ b ∈ ((checkBlockEnd l n r st).2).current_blocks, b.start_line ≤ n) := by
  unfold checkBlockEnd
  split
  · cases hl : st.current_blocks.getLast? with
    | none => exact ⟨hfb, hcb⟩
    | some blk =>
      constructor
      · intro b hb
        dsimp only at hb
        rcases List.mem_append.mp hb with h | h
        · exact hfb b h
        · rcases List.mem_singleton.mp h with rfl
          exact ⟨n, rfl, hcb blk (mem_of_getLastQ hl)⟩
      · intro b hb
        dsimp only at hb
        exact hcb b (mem_of_mem_dropLast hb)
  · exact ⟨hfb, hcb⟩

theorem cbs_mem (l : Str) (n : Nat) (st : GState) {b : BlockInfo}
    (hb : b ∈ (checkBlockStart l n st).current_blocks) :
    b ∈ st.current_blocks ∨ b.start_line = n := by
  unfold checkBlockStart at hb
  repeat' split at hb
  all_goals
    first
      | exact Or.inl hb
      | (rcases List.mem_append.mp hb with h | h
         · exact Or.inl h
         · rcases List.mem_singleton.mp h with rfl
           exact Or.inr rfl)

/-- A terminator or macro-end with an empty open-block stack is a no-op
(`check_block_end`, both pipelines share this shape). -/
theorem cbe_empty_noop (l : Str) (n : Nat) (r : GResults) (st : GState)
    (h : st.current_blocks = []) : checkBlockEnd l n r st = (r, st) := by
  unfold checkBlockEnd
  rw [h]
  split <;> rfl

end SAS

namespace SAS

/-! ## Per-line and whole-pass lemmas (Gantt_new pipeline) -/

/-- The `line_analysis` record written for a line. -/
def lineInfoOf (src : Option Str) (line : Str) : LineInfo :=
  ⟨pyStrip line, pyStrip (cleanLine line),
   classifyLine (pyStrip (cleanLine line)), src⟩

/-- `analyze_single_line` writes exactly one classification record, keyed
by the line number, before anything else — blank lines included. -/
theorem asl_la (src : Option Str) (t : Nat) (line : Str) (ln : Nat)
    (r : GResults) (st : GState) :
    ((analyzeSingleLine src t line ln r st).1).line_analysis =
      alSet r.line_analysis ln (lineInfoOf src line) := by
  unfold analyzeSingleLine lineInfoOf
  dsimp only
  split
  · rfl
  · rw [cbe_la, snowflake_la, sysG_la, incG_la, vars_la, fileOps_la, ctl_la,
        sqlOps_la, macrosG_la, procs_la, dataOps_la]

/-- A line without `QUIT;`/`RUN;` (upper-cased) leaves the emitted SQL
query list unchanged. -/
theorem asl_sq (src : Option Str) (t : Nat) (line : Str) (ln : Nat)
    (r : GResults) (st : GState)
    (hq : pyIn "QUIT;".data (pyUpper line) = false)
    (hr : pyIn "RUN;".data (pyUpper line) = false) :
    ((analyzeSingleLine src t line ln r st).1).snowflake_queries =
      r.snowflake_queries := by
  unfold analyzeSingleLine
  dsimp only
  split
  · rfl
  · rw [cbe_sq, snowflake_sq_noterm _ _ _ _ hq hr, sysG_sq, incG_sq, vars_sq,
        fileOps_sq, ctl_sq, sqlOps_sq, macrosG_sq, procs_sq, dataOps_sq]

/-- One line preserves the block invariants: closed blocks stay well
formed, and open blocks keep start lines at most the current line. -/
theorem asl_blocks (src : Option Str) (t : Nat) (line : Str) (ln : Nat)
    (r : GResults) (st : GState)
    (hfb : ∀ b ∈ r.function_blocks, BlockClosedOK b)
    (hcb : ∀ b ∈ st.current_blocks, b.start_line ≤ ln) :
    (∀ b ∈ ((analyzeSingleLine src t line ln r st).1).function_blocks,
      BlockClosedOK b) ∧
    (∀ b ∈ ((analyzeSingleLine src t line ln r st).2).current_blocks,
      b.start_line ≤ ln) := by
  unfold analyzeSingleLine
  dsimp only
  split
  · exact ⟨hfb, hcb⟩
  · refine cbe_blocks _ _ _ _ ?_ ?_
    · intro b hb
      rw [snowflake_fb, sysG_fb, incG_fb, vars_fb, fileOps_fb, ctl_fb,
          sqlOps_fb, macrosG_fb, procs_fb, dataOps_fb] at hb
      exact hfb b hb
    · intro b hb
      rw [snowflake_cb] at hb
      rcases cbs_mem _ _ _ hb with h | h
      · exact hcb b h
      · exact h ▸ Nat.le_refl ln

/-- Classification-key invariant across the main loop. -/
theorem processLines_la :
    ∀ (lines : List Str) (src : Option Str) (t k : Nat) (r : GResults)
      (st : GState),
    r.line_analysis.map Prod.fst = List.range' 1 k →
    ((processLines src t lines (k + 1) r st).1).line_analysis.map Prod.fst =
      List.range' 1 (k + lines.length)
  | [], src, t, k, r, st, h => by simpa using h
  | l :: rest, src, t, k, r, st, h => by
    have h2 : ((analyzeSingleLine src t l (k + 1) r st).1).line_analysis.map
        Prod.fst = List.range' 1 (k + 1) := by
      rw [asl_la, alSet_map_fst_notMem _ (by rw [h]; exact notMem_range1 k),
          h, range1_concat]
    have h3 := processLines_la rest src t (k + 1)
      (analyzeSingleLine src t l (k + 1) r st).1
      (analyzeSingleLine src t l (k + 1) r st).2 h2
    show ((processLines src t rest (k + 1 + 1) _ _).1).line_analysis.map
        Prod.fst = _
    rw [h3]
    congr 1
    simp [List.length_cons]
    omega

/-- Block invariants across the main loop: every already-closed block is
well formed, and every open block was opened at a line strictly before the
next line number to be processed. -/
theorem processLines_blocks :
    ∀ (lines : List Str) (src : Option Str) (t ln : Nat) (r : GResults)
      (st : GState),
    (∀ b ∈ r.function_blocks, BlockClosedOK b) →
    (∀ b ∈ st.current_blocks, b.start_line < ln) →
    (∀ b ∈ ((processLines src t lines ln r st).1).function_blocks,
      BlockClosedOK b) ∧
    (∀ b ∈ ((processLines src t lines ln r st).2).current_blocks,
      b.start_line < ln + lines.length)
  | [], src, t, ln, r, st, hfb, hcb => by
    refine ⟨hfb, ?_⟩
    intro b hb
    exact Nat.lt_of_lt_of_le (hcb b hb) (Nat.le_add_right _ _)
  | l :: rest, src, t, ln, r, st, hfb, hcb => by
    obtain ⟨hfb2, hcb2⟩ := asl_blocks src t l ln r st hfb
      (fun b hb => Nat.le_of_lt (hcb b hb))
    have hcb3 : ∀ b ∈ ((analyzeSingleLine src t l ln r st).2).current_blocks,
        b.start_line < ln + 1 :=
      fun b hb => Nat.lt_succ_of_le (hcb2 b hb)
    obtain ⟨ha, hb⟩ := processLines_blocks rest src t (ln + 1)
      (analyzeSingleLine src t l ln r st).1
      (analyzeSingleLine src t l ln r st).2 hfb2 hcb3
    refine ⟨ha, ?_⟩
    intro b hmem
    have := hb b hmem
    simp only [List.length_cons]
    omega

/-- `snowflake_queries` is unchanged across any run of lines none of which
contains a terminator (upper-cased `QUIT;`/`RUN;` substring). -/
theorem processLines_sq :
    ∀ (lines : List Str) (src : Option Str) (t ln : Nat) (r : GResults)
      (st : GState),
    (∀ l ∈ lines, pyIn "QUIT;".data (pyUpper l) = false ∧
                  pyIn "RUN;".data (pyUpper l) = false) →
    ((processLines src t lines ln r st).1).snowflake_queries =
      r.snowflake_queries
  | [], src, t, ln, r, st, h => rfl
  | l :: rest, src, t, ln, r, st, h => by
    have h1 := h l (List.mem_cons_self l rest)
    have h2 := processLines_sq rest src t (ln + 1)
      (analyzeSingleLine src t l ln r st).1
      (analyzeSingleLine src t l ln r st).2
      (fun x hx => h x (List.mem_cons_of_mem l hx))
    show ((processLines src t rest (ln + 1) _ _).1).snowflake_queries = _
    rw [h2, asl_sq src t l ln r st h1.1 h1.2]

/-- A block closed (forced) at the given total line count. -/
def closeAt (total : Nat) (b : BlockInfo) : BlockInfo :=
  {b with end_line := some total}

theorem finalizeGo_spec (total : Nat) :
    ∀ (l : List BlockInfo) (r : GResults),
    finalizeGo total l r =
      {r with function_blocks := r.function_blocks ++ l.map (closeAt total)} := by
  intro l
  induction l with
  | nil => intro r; simp [finalizeGo]
  | cons b t ih =>
    intro r
    rw [finalizeGo, ih]
    simp [closeAt]

/-- `finalize_open_blocks` in closed form: the result record is the input
with the still-open blocks appended in stack (pop) order, each with its
end line forced to the total line count. -/
theorem finalize_spec (total : Nat) (r : GResults) (st : GState) :
    (finalizeOpenBlocks total r st).1 =
      {r with function_blocks := r.function_blocks ++ st.current_blocks.reverse.map (closeAt total)} := by
  unfold finalizeOpenBlocks
  dsimp only
  rw [finalizeGo_spec]

end SAS

namespace SAS

theorem edpi_la (r : GResults) :
    (extractDetailedProcInfo r).line_analysis = r.line_analysis := by
  unfold extractDetailedProcInfo
  refine (foldl_preserve (fun x : GResults => x.line_analysis) ?_ _ _).trans
    ((foldl_preserve (fun x : GResults => x.line_analysis) ?_ _ _).trans
      ((foldl_preserve (fun x : GResults => x.line_analysis) ?_ _ _).trans ?_)) <;>
    first
      | rfl
      | (intro b a
         dsimp only
         split <;> rfl)

theorem edpi_fb (r : GResults) :
    (extractDetailedProcInfo r).function_blocks = r.function_blocks := by
  unfold extractDetailedProcInfo
  refine (foldl_preserve (fun x : GResults => x.function_blocks) ?_ _ _).trans
    ((foldl_preserve (fun x : GResults => x.function_blocks) ?_ _ _).trans
      ((foldl_preserve (fun x : GResults => x.function_blocks) ?_ _ _).trans ?_)) <;>
    first
      | rfl
      | (intro b a
         dsimp only
         split <;> rfl)

theorem edpi_sq (r : GResults) :
    (extractDetailedProcInfo r).snowflake_queries = r.snowflake_queries := by
  unfold extractDetailedProcInfo
  refine (foldl_preserve (fun x : GResults => x.snowflake_queries) ?_ _ _).trans
    ((foldl_preserve (fun x : GResults => x.snowflake_queries) ?_ _ _).trans
      ((foldl_preserve (fun x : GResults => x.snowflake_queries) ?_ _ _).trans ?_)) <;>
    first
      | rfl
      | (intro b a
         dsimp only
         split <;> rfl)

theorem calcG_la (r : GResults) :
    (calculateComplexityMetricsG r).line_analysis = r.line_analysis := rfl

theorem calcG_fb (r : GResults) :
    (calculateComplexityMetricsG r).function_blocks = r.function_blocks := rfl

theorem calcG_sq (r : GResults) :
    (calculateComplexityMetricsG r).snowflake_queries = r.snowflake_queries := rfl

theorem calcG_cc (r : GResults) :
    (calculateComplexityMetricsG r).code_complexity =
      some ⟨r.function_blocks.length,
            r.datasets_created.length + r.datasets_used.length,
            r.procedures_used.length, r.macros_defined.length,
            r.include_files.length, r.system_functions.length,
            r.line_analysis.length⟩ := rfl

end SAS

namespace SAS

/-! ## Facts about `str.split('.')`, for the dataset-type classification -/

theorem pySplitOn_ne_nil (sep : Char) : ∀ (s : Str), pySplitOn sep s ≠ []
  | [] => by simp [pySplitOn]
  | c :: t => by
    simp only [pySplitOn]
    split
    · simp
    · cases h : pySplitOn sep t with
      | nil => simp
      | cons p ps => simp

theorem pySplitOn_length_one (sep : Char) :
    ∀ (s : Str), (pySplitOn sep s).length = 1 ↔ sep ∉ s
  | [] => by simp [pySplitOn]
  | c :: t => by
    simp only [pySplitOn]
    split
    case _ hc =>
      subst hc
      constructor
      · intro h
        exfalso
        have := pySplitOn_ne_nil c t
        cases hh : pySplitOn c t with
        | nil => exact this hh
        | cons p ps => rw [hh] at h; simp at h
      · intro h
        exact absurd (List.mem_cons_self c t) h
    case _ hc =>
      cases hh : pySplitOn sep t with
      | nil => exact absurd hh (pySplitOn_ne_nil sep t)
      | cons p ps =>
        have ht := pySplitOn_length_one sep t
        rw [hh] at ht
        simp only [List.length_cons] at ht ⊢
        rw [List.mem_cons]
        constructor
        · intro h hmem
          rcases hmem with h2 | h2
          · exact hc h2.symm
          · exact (ht.mp h) h2
        · intro h
          exact ht.mpr (fun hm => h (Or.inr hm))

/-- The library prefix candidate: everything before the first dot. -/
def dotPrefix (s : Str) : Str := s.takeWhile (· ≠ '.')

theorem pySplitOn_head (sep : Char) :
    ∀ (s : Str), (pySplitOn sep s).headD [] = s.takeWhile (· ≠ sep)
  | [] => by simp [pySplitOn]
  | c :: t => by
    simp only [pySplitOn]
    split
    case _ hc =>
      subst hc
      simp [List.takeWhile]
    case _ hc =>
      cases hh : pySplitOn sep t with
      | nil => exact absurd hh (pySplitOn_ne_nil sep t)
      | cons p ps =>
        have ht := pySplitOn_head sep t
        rw [hh] at ht
        simp only [List.headD] at ht ⊢
        rw [List.takeWhile]
        simp only [hc, ht]
        simp [hc]

theorem dotPrefix_head (s : Str) :
    (pySplitOn '.' s).headD [] = dotPrefix s :=
  pySplitOn_head '.' s

end SAS

namespace SAS

/-! ## Inversion facts about the matcher, for the classifier claims

The classifier patterns have the shape `^\s*KW\s+`.  A successful match
forces the input to be whitespace, then the keyword: that yields the
mutual exclusivity of the ordered classifier tests. -/

theorem reM_rep_cls_inv :
    ∀ (f : Nat) (p : Char → Bool) (caps : Caps) (prev : Option Char)
      (s : Str) (k : Caps → Option Char → Str → Option (Caps × Option Char × Str))
      (res : Caps × Option Char × Str),
    reM f (.rep true (.cls p)) caps prev s k = some res →
    ∃ w prev2 rest, s = w ++ rest ∧ (∀ c ∈ w, p c = true) ∧
      k caps prev2 rest = some res := by
  intro f
  induction f with
  | zero => intro p caps prev s k res h; simp [reM] at h
  | succ f ih =>
    intro p caps prev s k res h
    rw [reM] at h
    try dsimp only at h
    cases hi : reM f (.cls p) caps prev s
        (fun c2 p2 s2 =>
          if s2.length < s.length then reM f (.rep true (.cls p)) c2 p2 s2 k
          else none) with
    | none =>
      rw [hi] at h
      simp only [Option.orElse, Option.none_orElse] at h
      exact ⟨[], prev, s, rfl, by simp, by simpa using h⟩
    | some res2 =>
      rw [hi] at h
      simp at h
      subst h
      cases f with
      | zero => simp [reM] at hi
      | succ f2 =>
        rw [reM.eq_def] at hi
        dsimp only at hi
        cases s with
        | nil => simp at hi
        | cons x rest0 =>
          dsimp only at hi
          by_cases hp : p x = true
          · rw [if_pos hp] at hi
            rw [if_pos (by simp)] at hi
            obtain ⟨w2, prev2, rest, heq, hall, hk⟩ :=
              ih p caps (some x) rest0 k res2 hi
            exact ⟨x :: w2, prev2, rest, by simp [heq],
              by intro c hc
                 rcases List.mem_cons.mp hc with h2 | h2
                 · exact h2 ▸ hp
                 · exact hall c h2, hk⟩
          · rw [if_neg hp] at hi
            exact absurd hi (by simp)

theorem reM_lit_inv :
    ∀ (kw : Str) (f : Nat) (caps : Caps) (prev : Option Char) (s : Str)
      (k : Caps → Option Char → Str → Option (Caps × Option Char × Str))
      (res : Caps × Option Char × Str),
    reM f (litS kw) caps prev s k = some res →
    strStarts kw s = true := by
  intro kw
  induction kw with
  | nil => intro f caps prev s k res h; rfl
  | cons c t ih =>
    intro f caps prev s k res h
    cases f with
    | zero => simp [reM] at h
    | succ f =>
      rw [litS, reM] at h
      try dsimp only at h
      cases f with
      | zero => simp [reM] at h
      | succ f2 =>
        rw [reM.eq_def] at h
        dsimp only at h
        cases s with
        | nil => simp at h
        | cons x rest =>
          dsimp only at h
          by_cases hx : x = c
          · rw [if_pos hx] at h
            have := ih (Nat.succ f2) caps (some x) rest k res h
            simp [strStarts, hx, this]
          · rw [if_neg hx] at h
            simp at h

theorem dropWhile_append_all {p : Char → Bool} :
    ∀ (w rest : Str), (∀ c ∈ w, p c = true) →
    List.dropWhile p (w ++ rest) = List.dropWhile p rest := by
  intro w
  induction w with
  | nil => intro rest h; rfl
  | cons c t ih =>
    intro rest h
    rw [List.cons_append, List.dropWhile_cons]
    rw [if_pos (h c (List.mem_cons_self c t))]
    exact ih rest (fun d hd => h d (List.mem_cons_of_mem c hd))

theorem strStarts_take : ∀ (a s : Str), strStarts a s = true → s.take a.length = a := by
  intro a
  induction a with
  | nil => intro s h; rfl
  | cons c t ih =>
    intro s h
    cases s with
    | nil => simp [strStarts] at h
    | cons x u =>
      simp only [strStarts, Bool.and_eq_true, decide_eq_true_eq] at h
      obtain ⟨rfl, h2⟩ := h
      simp only [List.length_cons, List.take_succ_cons]
      rw [ih u h2]

/-- A match of `^\s*KW\s+` forces the input, after its leading
whitespace, to start with `KW`. -/
theorem classifyKw_match_starts (kw : Str) (s : Str)
    (hkw : kw ≠ []) (hhead : pyIsSpace (kw.headD ' ') = false)
    (h : reMatchB (rcat [ws0, litS kw, ws1]) s = true) :
    strStarts kw (s.dropWhile pyIsSpace) = true := by
  unfold reMatchB reMatchAt at h
  rw [Option.isSome_iff_exists] at h
  obtain ⟨res, hres⟩ := h
  have hFpos : fuelFor (rcat [ws0, litS kw, ws1]) s ≠ 0 := by
    unfold fuelFor
    intro hz
    rcases Nat.mul_eq_zero.mp hz with hz | hz <;> omega
  obtain ⟨F2, hF2⟩ := Nat.exists_eq_succ_of_ne_zero hFpos
  rw [hF2] at hres
  rw [show rcat [ws0, litS kw, ws1] = .cat ws0 (.cat (litS kw) ws1) from rfl] at hres
  rw [reM] at hres
  try dsimp only at hres
  obtain ⟨w, prev2, rest, heq, hall, hk⟩ :=
    reM_rep_cls_inv F2 pyIsSpace [] none s _ res hres
  cases F2 with
  | zero => simp [reM] at hk
  | succ F3 =>
    rw [reM] at hk
    try dsimp only at hk
    have hst : strStarts kw rest = true := reM_lit_inv kw F3 [] prev2 rest _ res hk
    rw [heq, dropWhile_append_all w rest hall]
    cases kw with
    | nil => exact absurd rfl hkw
    | cons c t =>
      cases rest with
      | nil => simp [strStarts] at hst
      | cons x u =>
        simp only [strStarts, Bool.and_eq_true, decide_eq_true_eq] at hst
        obtain ⟨rfl, h2⟩ := hst
        rw [List.dropWhile_cons]
        rw [if_neg (by simp only [List.headD] at hhead; simp [hhead])]
        simp [strStarts, h2]

end SAS

namespace SAS

/-! ## Claim theorems -/

/-- C1 (amended): in the `Gantt_new.py` pipeline, `analyze_single_line`
records the classification before the blank-line short-circuit, so after
`analyze_lines` on any N-line input the keys of `line_analysis` are exactly
1..N in order — every line number appears exactly once, blank and
comment-only lines included — and `code_complexity.total_lines = N`.  (The
claim as stated fails for the `sas_analysis.py` pipeline, whose
`_analyze_single_line` returns on a blank cleaned line before writing the
record; see the counterexample.) -/
theorem claim_C1 (lines : List Str) (src : Option Str) :
    (analyzeLines lines src).line_analysis.map Prod.fst =
      List.range' 1 lines.length ∧
    (analyzeLines lines src).code_complexity.map GComplexity.total_lines =
      some lines.length := by
  unfold analyzeLines
  dsimp only
  have h0 : (initResults.line_analysis).map Prod.fst = List.range' 1 0 := rfl
  have hla := processLines_la lines src lines.length 0 initResults initState h0
  try simp only [Nat.zero_add] at hla
  have hlen : ((processLines src lines.length lines 1 initResults
      initState).1).line_analysis.length = lines.length := by
    have h2 := congrArg List.length hla
    simpa using h2
  constructor
  · rw [calcG_la, edpi_la, finalize_spec]
    exact hla
  · rw [calcG_cc]
    rw [show ∀ (c : GComplexity), Option.map GComplexity.total_lines (some c) =
      some c.total_lines from fun c => rfl]
    congr 1
    rw [edpi_la, finalize_spec]
    exact hlen

/-- C1 counterexample: for the one-line input `[""]` (N = 1), the
`sas_analysis.py` `analyze_lines` records no classification for line 1 —
`line_analysis` has no keys at all — and `total_lines` is 0, not 1: the
blank-line short-circuit precedes the classification write there. -/
theorem claim_C1_counterexample :
    (sasAnalyzeLines ["".data]).line_analysis.map Prod.fst = [] ∧
    (sasAnalyzeLines ["".data]).code_complexity.map SComplexity.total_lines =
      some 0 ∧
    (sasAnalyzeLines ["".data]).code_complexity.map SComplexity.total_lines ≠
      some ["".data].length := by
  refine ⟨by decide, by decide, by decide⟩

/-- C2: every closed Block in the final list has `end_line ≥ start_line`,
and the final list is the closed-during-the-pass blocks followed by the
blocks still open at end of input, appended in stack order (most recently
opened first, i.e. the reversed stack) with `end_line` forced to the total
line count. -/
theorem claim_C2 (lines : List Str) (src : Option Str) :
    (∀ b ∈ (analyzeLines lines src).function_blocks,
      ∃ e, b.end_line = some e ∧ b.start_line ≤ e) ∧
    (analyzeLines lines src).function_blocks =
      ((processLines src lines.length lines 1 initResults initState).1).function_blocks ++
      ((processLines src lines.length lines 1 initResults initState).2).current_blocks.reverse.map
        (closeAt lines.length) := by
  have hp := processLines_blocks lines src lines.length 1 initResults initState
    (by intro b hb; simp [initResults] at hb)
    (by intro b hb; simp [initState] at hb)
  constructor
  · intro b hb
    unfold analyzeLines at hb
    dsimp only at hb
    rw [calcG_fb, edpi_fb, finalize_spec] at hb
    dsimp only at hb
    rcases List.mem_append.mp hb with h | h
    · exact hp.1 b h
    · rcases List.mem_map.mp h with ⟨c, hc, rfl⟩
      refine ⟨lines.length, rfl, ?_⟩
      have hc2 := hp.2 c (List.mem_reverse.mp hc)
      simp only [closeAt]
      omega
  · unfold analyzeLines
    dsimp only
    rw [calcG_fb, edpi_fb, finalize_spec]

/-- C2 witness: on the one-line input `["DATA X;"]` the DATA block is
still open at end of input and is force-closed at line 1 = the total line
count, satisfying `end_line ≥ start_line`. -/
theorem claim_C2_witness :
    ∃ e, ({btype := "DATA".data, name := "DATA X".data, start_line := 1,
           end_line := some 1, datasets := ["X".data]} : BlockInfo).end_line =
        some e ∧
      ({btype := "DATA".data, name := "DATA X".data, start_line := 1,
        end_line := some 1, datasets := ["X".data]} : BlockInfo).start_line ≤ e :=
  (claim_C2 ["DATA X;".data] none).1 _ (by decide)

/-- C3: a terminator (`RUN;`/`QUIT;`) or macro-end seen while the
open-block stack is empty is a no-op — `check_block_end` returns results
and state unchanged (the embedding is total, so no exception arises) —
and on `["DATA X;", "RUN;", "RUN;"]` exactly one Block is closed, with
`end_line` 2; the second `RUN;` at line 3 closes nothing. -/
theorem claim_C3 :
    (∀ (l : Str) (n : Nat) (r : GResults) (st : GState),
      st.current_blocks = [] → checkBlockEnd l n r st = (r, st)) ∧
    (analyzeLines ["DATA X;".data, "RUN;".data, "RUN;".data]).function_blocks =
      [{btype := "DATA".data, name := "DATA X".data, start_line := 1,
        end_line := some 2, datasets := ["X".data]}] :=
  ⟨cbe_empty_noop, by decide⟩

/-- C3 witness: the no-op clause applied concretely — a `RUN;` at line 3
with an empty stack leaves results and state untouched. -/
theorem claim_C3_witness :
    checkBlockEnd "RUN;".data 3 initResults initState =
      (initResults, initState) :=
  claim_C3.1 "RUN;".data 3 initResults initState (by decide)

end SAS

namespace SAS

set_option maxRecDepth 8192 in
/-- C4: macro definitions are tracked with a name stack — `%MACRO` pushes
the name and records the stack top (or `None`) as parent, a named `%MEND`
sets that macro's end line and removes it from the stack, an unnamed
`%MEND` pops and ends the innermost macro.  On the claim's input, FOO has
parent `None` and end line 4 and BAR has parent FOO and end line 3; the
second input exercises the unnamed-`%MEND` pop the same way. -/
theorem claim_C4 :
    (alGet (analyzeLines ["%MACRO FOO(X);".data, "%MACRO BAR(Y);".data,
        "%MEND BAR;".data, "%MEND FOO;".data]).macros_defined "FOO".data =
      some ⟨1, "X".data, none, some 4⟩) ∧
    (alGet (analyzeLines ["%MACRO FOO(X);".data, "%MACRO BAR(Y);".data,
        "%MEND BAR;".data, "%MEND FOO;".data]).macros_defined "BAR".data =
      some ⟨2, "Y".data, some "FOO".data, some 3⟩) ∧
    ((analyzeLines ["%MACRO FOO(X);".data, "%MACRO BAR(Y);".data,
        "%MEND BAR;".data, "%MEND FOO;".data]).macros_defined.map Prod.fst =
      ["FOO".data, "BAR".data]) ∧
    (alGet (analyzeLines ["%MACRO A(X);".data, "%MACRO B(Y);".data,
        "%MEND;".data, "%MEND;".data]).macros_defined "A".data =
      some ⟨1, "X".data, none, some 4⟩) ∧
    (alGet (analyzeLines ["%MACRO A(X);".data, "%MACRO B(Y);".data,
        "%MEND;".data, "%MEND;".data]).macros_defined "B".data =
      some ⟨2, "Y".data, some "A".data, some 3⟩) := by
  refine ⟨by decide, by decide, by decide, by decide, by decide⟩

/-- C5: a created table is classified Temporary exactly when its name has
no library prefix or its (upper-cased) prefix is `WORK`, and Permanent for
any other prefix (the classifier returns only these two values; captured
table names start with `[A-Z_]`, whence the head-character hypothesis);
and on the claim's input exactly one SqlQuery is emitted, spanning lines
1-3, creating `WORK.T1` classified Temporary, with `RAW.SRC` among (and
first of) its referenced tables. -/
theorem claim_C5 :
    (∀ name : Str, determineDatasetType name = "Temporary".data ∨
      determineDatasetType name = "Permanent".data) ∧
    (∀ name : Str, name ≠ [] → isTokStart (name.headD ' ') = true →
      (determineDatasetType name = "Temporary".data ↔
        ('.' ∉ name ∨ pyUpper (dotPrefix name) = "WORK".data))) ∧
    ((analyzeLines ["PROC SQL;".data,
        "CREATE TABLE WORK.T1 AS SELECT * FROM RAW.SRC;".data,
        "QUIT;".data]).snowflake_queries =
      [⟨some 1, 3, "CREATE TABLE WORK.T1 AS SELECT * FROM RAW.SRC;".data,
        ["RAW.SRC".data, "WORK.T1".data], "WORK.T1".data,
        "Temporary".data⟩]) := by
  refine ⟨?_, ?_, by decide⟩
  · intro name
    unfold determineDatasetType
    dsimp only
    split
    · exact Or.inl rfl
    · split
      · exact Or.inl rfl
      · exact Or.inr rfl
  · intro name h1 h2
    unfold determineDatasetType
    dsimp only
    have hhead : name.headD ' ' ≠ '.' := by
      intro hc
      rw [hc] at h2
      exact absurd h2 (by decide)
    by_cases hdot : '.' ∈ name
    · rw [if_neg (fun h => (pySplitOn_length_one '.' name).mp h hdot)]
      rw [dotPrefix_head]
      have htw : dotPrefix name ≠ [] := by
        unfold dotPrefix
        cases name with
        | nil => exact absurd rfl h1
        | cons c t =>
          have hc : c ≠ '.' := by simpa using hhead
          rw [List.takeWhile_cons]
          rw [if_pos (by simpa using hc)]
          simp
      have hup : pyUpper (dotPrefix name) ≠ [] := by
        intro h
        exact htw (List.map_eq_nil_iff.mp h)
      by_cases hw : pyUpper (dotPrefix name) = "WORK".data
      · rw [if_pos (by simp [hw])]
        simp [hw]
      · rw [if_neg (by simp [hw, hup])]
        simp [hw, hdot]
        try decide
    · rw [if_pos ((pySplitOn_length_one '.' name).mpr hdot)]
      simp [hdot]

/-- C5 witness: the classification clause applied at the concrete created
table `WORK.T1`: prefix `WORK`, hence Temporary. -/
theorem claim_C5_witness :
    determineDatasetType "WORK.T1".data = "Temporary".data ↔
      ('.' ∉ "WORK.T1".data ∨
        pyUpper (dotPrefix "WORK.T1".data) = "WORK".data) :=
  claim_C5.2.1 "WORK.T1".data (by decide) (by decide)

/-- C6: if no line from some point on contains `QUIT;` or `RUN;`
(upper-cased), then processing those lines emits no SqlQuery — the list is
exactly what it was before, buffered content dropped, and the total
embedding raises nothing; concretely, a `PROC SQL` block never terminated
before end of input yields an empty emitted-query list. -/
theorem claim_C6 :
    (∀ (lines : List Str) (src : Option Str) (t ln : Nat) (r : GResults)
      (st : GState),
      (∀ l ∈ lines, pyIn "QUIT;".data (pyUpper l) = false ∧
        pyIn "RUN;".data (pyUpper l) = false) →
      ((processLines src t lines ln r st).1).snowflake_queries =
        r.snowflake_queries) ∧
    (analyzeLines ["PROC SQL;".data,
      "CREATE TABLE A AS SELECT * FROM B;".data]).snowflake_queries = [] :=
  ⟨fun lines src t ln r st h => processLines_sq lines src t ln r st h,
   by decide⟩

/-- C6 witness: the no-terminator clause applied concretely, mid-block
(the collector state says a `PROC SQL` opened at line 1). -/
theorem claim_C6_witness :
    ((processLines none 2 ["CREATE TABLE A AS SELECT * FROM B;".data] 2
      initResults
      {initState with in_sql_block := true,
                      sql_block_start := some 1}).1).snowflake_queries =
    initResults.snowflake_queries :=
  claim_C6.1 ["CREATE TABLE A AS SELECT * FROM B;".data] none 2 2
    initResults _ (by decide)

end SAS

namespace SAS

/-- C7 (amended): in `sas_analysis.py`, `complexity_score` equals closed
blocks + distinct `procedures_used` keys + (distinct `macros_defined` keys
+ distinct `macros_called` keys) + distinct `include_files` keys: the
`total_macros` term of the score counts macro-call keys as well as
macro-definition keys.  (`Gantt_new.calculate_complexity_metrics` computes
no `complexity_score` at all.) -/
theorem claim_C7 (lines : List Str) (src : Option Str) :
    (sasAnalyzeLines lines src).code_complexity.map SComplexity.complexity_score =
      some ((sasAnalyzeLines lines src).function_blocks.length +
        (sasAnalyzeLines lines src).procedures_used.length +
        ((sasAnalyzeLines lines src).macros_defined.length +
          (sasAnalyzeLines lines src).macros_called.length) +
        (sasAnalyzeLines lines src).include_files.length) := rfl

/-- C7 counterexample: on `["%FOO;"]` the recorded `complexity_score` is 1
(the macro call `%FOO` counts through `total_macros`), while the claim's
formula — closed blocks + procedure keys + macro-definition keys +
include keys — evaluates to 0. -/
theorem claim_C7_counterexample :
    (sasAnalyzeLines ["%FOO;".data]).code_complexity.map
        SComplexity.complexity_score = some 1 ∧
    (sasAnalyzeLines ["%FOO;".data]).function_blocks.length +
      (sasAnalyzeLines ["%FOO;".data]).procedures_used.length +
      (sasAnalyzeLines ["%FOO;".data]).macros_defined.length +
      (sasAnalyzeLines ["%FOO;".data]).include_files.length = 0 := by
  refine ⟨by decide, by decide⟩

/-- C9: the analysis is a pure function of the line sequence.  The
`sas_analysis.py` analyzer resets all carried-over instance state before
every run, so runs from any two prior analyzer states agree; and the
`Gantt_new.py` `analyze_lines` depends on nothing but its arguments, so
two runs on identical inputs return identical results (the embedded core
reads no clock or other ambient state — `datetime` appears only in the
reporting layer, outside the analyzer core). -/
theorem claim_C9 :
    (∀ (p1 p2 : SState × SResults) (lines : List Str) (src : Option Str),
      sasAnalyzeLinesFrom p1 lines src = sasAnalyzeLinesFrom p2 lines src) ∧
    (∀ (lines1 lines2 : List Str) (src : Option Str), lines1 = lines2 →
      analyzeLines lines1 src = analyzeLines lines2 src) :=
  ⟨fun _ _ _ _ => rfl, fun _ _ _ h => h ▸ rfl⟩

/-- C9 witness: two runs on the same concrete input coincide. -/
theorem claim_C9_witness :
    analyzeLines ["RUN;".data] none = analyzeLines ["RUN;".data] none :=
  claim_C9.2 ["RUN;".data] ["RUN;".data] none rfl

/-- C10: a terminator reached inside a `PROC SQL` block whose query buffer
is empty (and whose line is not itself a new `PROC SQL` opener) emits
nothing — the results are returned untouched — while the collector state
is still cleared: `in_sql_block` false, buffer empty, start line `None`.
Concretely, `["PROC SQL;", "QUIT;"]` emits no SqlQuery. -/
theorem claim_C10 :
    (∀ (line : Str) (ln : Nat) (r : GResults) (st : GState),
      st.in_sql_block = true →
      st.current_sql_query = [] →
      reMatchB pProcSql (pyUpper line) = false →
      (pyIn "QUIT;".data (pyUpper line) || pyIn "RUN;".data (pyUpper line)) = true →
      analyzeSnowflakeReferences line ln r st =
        (r, {st with in_sql_block := false, current_sql_query := [],
                     sql_block_start := none})) ∧
    (analyzeLines ["PROC SQL;".data, "QUIT;".data]).snowflake_queries = [] := by
  constructor
  · intro line ln r st hsql hbuf hproc hterm
    unfold analyzeSnowflakeReferences
    dsimp only
    rw [hproc, hsql, hbuf]
    simp [hterm]
  · decide

/-- C10 witness: the empty-buffer terminator clause applied at `QUIT;` on
line 2 with an open block started at line 1. -/
theorem claim_C10_witness :
    analyzeSnowflakeReferences "QUIT;".data 2 initResults
      {initState with in_sql_block := true, sql_block_start := some 1} =
    (initResults,
     {{initState with in_sql_block := true, sql_block_start := some 1} with
        in_sql_block := false, current_sql_query := [],
        sql_block_start := none}) :=
  claim_C10.1 "QUIT;".data 2 initResults
    {initState with in_sql_block := true, sql_block_start := some 1}
    rfl rfl (by decide) (by decide)

end SAS

namespace SAS

theorem strStarts_disjoint (a b t : Str)
    (h : List.take (min a.length b.length) a ≠ List.take (min a.length b.length) b)
    (ha : strStarts a t = true) (hb : strStarts b t = true) : False := by
  have h1 := strStarts_take a t ha
  have h2 := strStarts_take b t hb
  apply h
  calc List.take (min a.length b.length) a
      = List.take (min a.length b.length) (List.take a.length t) := by rw [h1]
    _ = List.take (min a.length b.length) t := by
        rw [List.take_take]
        congr 1
        omega
    _ = List.take (min a.length b.length) (List.take b.length t) := by
        rw [List.take_take]
        congr 1
        omega
    _ = List.take (min a.length b.length) b := by rw [h2]

theorem bool_eq_false {b : Bool} (h : ¬ b = true) : b = false := by
  cases b
  · rfl
  · exact absurd rfl h

/-- The ordered (test, tag) table of the Line Classifier, in the priority
order the spec states: include-directive, data-step, procedure,
macro-definition, generic macro-call, library, ODS, terminator; any other
line is a generic statement. -/
def classifierOrder : List ((Str → Bool) × Str) :=
  [(fun l => reMatchB pClsInclude l, "INCLUDE".data),
   (fun l => reMatchB pClsData l, "DATA_STEP".data),
   (fun l => reMatchB pClsProc l, "PROCEDURE".data),
   (fun l => reMatchB pClsMacroDef l, "MACRO_DEF".data),
   (fun l => reMatchB pClsPct l, "MACRO_CALL".data),
   (fun l => reMatchB pClsLib l, "LIBRARY".data),
   (fun l => reMatchB pClsOds l, "ODS".data),
   (fun l => pyIn "RUN;".data l || pyIn "QUIT;".data l, "TERMINATOR".data)]

/-- First matching tag in an ordered table, else the generic statement. -/
def firstTag : List ((Str → Bool) × Str) → Str → Str
  | [], _ => "STATEMENT".data
  | p :: rest, l => if p.1 l then p.2 else firstTag rest l

/-- C8: the classifier returns exactly the first matching tag of the
ordered priority table (hence exactly one tag per line); a line whose
content after leading whitespace is the keyword `%MACRO` (the
macro-definition pattern `^\s*%MACRO\s+`) is classified MACRO_DEF and
never MACRO_CALL; a line matching the data-step pattern `^\s*DATA\s+` is
DATA_STEP even if it also contains `RUN;`; and TERMINATOR is returned
only when `RUN;`/`QUIT;` occurs and none of the seven earlier patterns
matched. -/
theorem claim_C8 :
    (∀ l : Str, classifyLine l = firstTag classifierOrder (pyStrip l)) ∧
    (∀ l : Str, reMatchB pClsMacroDef (pyStrip l) = true →
      classifyLine l = "MACRO_DEF".data ∧
      classifyLine l ≠ "MACRO_CALL".data) ∧
    (∀ l : Str, reMatchB pClsData (pyStrip l) = true →
      classifyLine l = "DATA_STEP".data) ∧
    (∀ l : Str, classifyLine l = "TERMINATOR".data →
      (pyIn "RUN;".data (pyStrip l) || pyIn "QUIT;".data (pyStrip l)) = true ∧
      reMatchB pClsInclude (pyStrip l) = false ∧
      reMatchB pClsData (pyStrip l) = false ∧
      reMatchB pClsProc (pyStrip l) = false ∧
      reMatchB pClsMacroDef (pyStrip l) = false ∧
      reMatchB pClsPct (pyStrip l) = false ∧
      reMatchB pClsLib (pyStrip l) = false ∧
      reMatchB pClsOds (pyStrip l) = false) := by
  refine ⟨fun l => rfl, ?_, ?_, ?_⟩
  · intro l hm
    have hstart : strStarts "%MACRO".data
        ((pyStrip l).dropWhile pyIsSpace) = true :=
      classifyKw_match_starts "%MACRO".data (pyStrip l) (by decide) (by decide) hm
    have hinc : reMatchB pClsInclude (pyStrip l) = false := by
      refine bool_eq_false (fun hI => ?_)
      have h2 := classifyKw_match_starts "%INCLUDE".data (pyStrip l)
        (by decide) (by decide) hI
      exact strStarts_disjoint "%MACRO".data "%INCLUDE".data _
        (by decide) hstart h2
    have hdata : reMatchB pClsData (pyStrip l) = false := by
      refine bool_eq_false (fun hI => ?_)
      have h2 := classifyKw_match_starts "DATA".data (pyStrip l)
        (by decide) (by decide) hI
      exact strStarts_disjoint "%MACRO".data "DATA".data _
        (by decide) hstart h2
    have hproc : reMatchB pClsProc (pyStrip l) = false := by
      refine bool_eq_false (fun hI => ?_)
      have h2 := classifyKw_match_starts "PROC".data (pyStrip l)
        (by decide) (by decide) hI
      exact strStarts_disjoint "%MACRO".data "PROC".data _
        (by decide) hstart h2
    have hcls : classifyLine l = "MACRO_DEF".data := by
      unfold classifyLine
      dsimp only
      rw [hinc, hdata, hproc, hm]
      simp
    exact ⟨hcls, by rw [hcls]; decide⟩
  · intro l hd
    have hstart : strStarts "DATA".data
        ((pyStrip l).dropWhile pyIsSpace) = true :=
      classifyKw_match_starts "DATA".data (pyStrip l) (by decide) (by decide) hd
    have hinc : reMatchB pClsInclude (pyStrip l) = false := by
      refine bool_eq_false (fun hI => ?_)
      have h2 := classifyKw_match_starts "%INCLUDE".data (pyStrip l)
        (by decide) (by decide) hI
      exact strStarts_disjoint "DATA".data "%INCLUDE".data _
        (by decide) hstart h2
    unfold classifyLine
    dsimp only
    rw [hinc, hd]
    simp
  · intro l
    unfold classifyLine
    dsimp only
    intro h
    by_cases h1 : reMatchB pClsInclude (pyStrip l) = true
    · rw [if_pos h1] at h; exact absurd h (by decide)
    · rw [if_neg h1] at h
      by_cases h2 : reMatchB pClsData (pyStrip l) = true
      · rw [if_pos h2] at h; exact absurd h (by decide)
      · rw [if_neg h2] at h
        by_cases h3 : reMatchB pClsProc (pyStrip l) = true
        · rw [if_pos h3] at h; exact absurd h (by decide)
        · rw [if_neg h3] at h
          by_cases h4 : reMatchB pClsMacroDef (pyStrip l) = true
          · rw [if_pos h4] at h; exact absurd h (by decide)
          · rw [if_neg h4] at h
            by_cases h5 : reMatchB pClsPct (pyStrip l) = true
            · rw [if_pos h5] at h; exact absurd h (by decide)
            · rw [if_neg h5] at h
              by_cases h6 : reMatchB pClsLib (pyStrip l) = true
              · rw [if_pos h6] at h; exact absurd h (by decide)
              · rw [if_neg h6] at h
                by_cases h7 : reMatchB pClsOds (pyStrip l) = true
                · rw [if_pos h7] at h; exact absurd h (by decide)
                · rw [if_neg h7] at h
                  by_cases h8 : (pyIn "RUN;".data (pyStrip l) ||
                      pyIn "QUIT;".data (pyStrip l)) = true
                  · exact ⟨h8, bool_eq_false h1, bool_eq_false h2,
                      bool_eq_false h3, bool_eq_false h4, bool_eq_false h5,
                      bool_eq_false h6, bool_eq_false h7⟩
                  · rw [if_neg h8] at h
                    exact absurd h (by decide)

/-- C8 witness: the macro-definition clause applied at the concrete line
`"%MACRO M(A);"`, which the classifier tags MACRO_DEF, not MACRO_CALL. -/
theorem claim_C8_witness :
    classifyLine "%MACRO M(A);".data = "MACRO_DEF".data ∧
    classifyLine "%MACRO M(A);".data ≠ "MACRO_CALL".data :=
  claim_C8.2.1 "%MACRO M(A);".data (by decide)

end SAS
